import Mathlib

set_option maxRecDepth 100000

/-!
Verification of the job-posting normalization and deduplication pipeline
(`src/main.py`) against its natural-language specification.

The embedding models Python's dynamically typed values with an inductive
`PyVal`, translates the helper functions of `main.py` (normalize_location,
normalize_salary, clean_text, generate_job_hash, get_or_create_company,
parse_salary_range; extract_seek_location is dead code never called by the
endpoint and is omitted) and the `process_job` endpoint itself, with the
persistent store (Supabase) modelled as an explicit state plus a per-call
failure oracle and a trace of issued store calls.

Modelling notes (each noted again at the definition it concerns):
- Python `str.lower` / `str.strip` / `str.split` and the other string
  primitives are modelled by structurally recursive definitions over char
  lists (ASCII case folding; all inputs the pipeline exercises are ASCII).
- Supabase `ilike` is modelled as SQL ILIKE pattern matching (`%`, `_`,
  backslash escape, case-insensitive).
- `html.unescape` is modelled on the entity subset {amp, lt, gt} (with and
  without trailing semicolon, longest first), which is the fragment the
  repository's data and tests exercise; entities outside the subset are left
  untouched.
- The PostgREST or-filter string built by `process_job` is modelled as a
  structured query (rows whose hash equals the fingerprint or whose job_id
  column equals `str(job_id)`); ids are assumed free of PostgREST filter
  metacharacters.
-/

/-- A Python runtime value, as far as the pipeline inspects values:
`None`, strings, numbers (integral; the pipeline never computes on numbers,
it only passes them through and tests truthiness), booleans, lists and
dicts (association lists, first binding wins). -/
inductive PyVal where
  | vNone : PyVal
  | vStr : String → PyVal
  | vNum : Int → PyVal
  | vBool : Bool → PyVal
  | vList : List PyVal → PyVal
  | vDict : List (String × PyVal) → PyVal
deriving Repr

mutual

/-- Decidable equality on `PyVal` (the deriving handler does not support this
nested inductive). -/
def pyDecEq : (a b : PyVal) → Decidable (a = b)
  | .vNone, .vNone => isTrue rfl
  | .vStr a, .vStr b =>
    match decEq a b with
    | isTrue h => isTrue (by rw [h])
    | isFalse h => isFalse (by intro hh; injection hh; contradiction)
  | .vNum a, .vNum b =>
    match decEq a b with
    | isTrue h => isTrue (by rw [h])
    | isFalse h => isFalse (by intro hh; injection hh; contradiction)
  | .vBool a, .vBool b =>
    match decEq a b with
    | isTrue h => isTrue (by rw [h])
    | isFalse h => isFalse (by intro hh; injection hh; contradiction)
  | .vList a, .vList b =>
    match pyDecEqList a b with
    | isTrue h => isTrue (by rw [h])
    | isFalse h => isFalse (by intro hh; injection hh; contradiction)
  | .vDict a, .vDict b =>
    match pyDecEqKV a b with
    | isTrue h => isTrue (by rw [h])
    | isFalse h => isFalse (by intro hh; injection hh; contradiction)
  | .vNone, .vStr _ => isFalse (by intro hh; exact PyVal.noConfusion hh)
  | .vNone, .vNum _ => isFalse (by intro hh; exact PyVal.noConfusion hh)
  | .vNone, .vBool _ => isFalse (by intro hh; exact PyVal.noConfusion hh)
  | .vNone, .vList _ => isFalse (by intro hh; exact PyVal.noConfusion hh)
  | .vNone, .vDict _ => isFalse (by intro hh; exact PyVal.noConfusion hh)
  | .vStr _, .vNone => isFalse (by intro hh; exact PyVal.noConfusion hh)
  | .vStr _, .vNum _ => isFalse (by intro hh; exact PyVal.noConfusion hh)
  | .vStr _, .vBool _ => isFalse (by intro hh; exact PyVal.noConfusion hh)
  | .vStr _, .vList _ => isFalse (by intro hh; exact PyVal.noConfusion hh)
  | .vStr _, .vDict _ => isFalse (by intro hh; exact PyVal.noConfusion hh)
  | .vNum _, .vNone => isFalse (by intro hh; exact PyVal.noConfusion hh)
  | .vNum _, .vStr _ => isFalse (by intro hh; exact PyVal.noConfusion hh)
  | .vNum _, .vBool _ => isFalse (by intro hh; exact PyVal.noConfusion hh)
  | .vNum _, .vList _ => isFalse (by intro hh; exact PyVal.noConfusion hh)
  | .vNum _, .vDict _ => isFalse (by intro hh; exact PyVal.noConfusion hh)
  | .vBool _, .vNone => isFalse (by intro hh; exact PyVal.noConfusion hh)
  | .vBool _, .vStr _ => isFalse (by intro hh; exact PyVal.noConfusion hh)
  | .vBool _, .vNum _ => isFalse (by intro hh; exact PyVal.noConfusion hh)
  | .vBool _, .vList _ => isFalse (by intro hh; exact PyVal.noConfusion hh)
  | .vBool _, .vDict _ => isFalse (by intro hh; exact PyVal.noConfusion hh)
  | .vList _, .vNone => isFalse (by intro hh; exact PyVal.noConfusion hh)
  | .vList _, .vStr _ => isFalse (by intro hh; exact PyVal.noConfusion hh)
  | .vList _, .vNum _ => isFalse (by intro hh; exact PyVal.noConfusion hh)
  | .vList _, .vBool _ => isFalse (by intro hh; exact PyVal.noConfusion hh)
  | .vList _, .vDict _ => isFalse (by intro hh; exact PyVal.noConfusion hh)
  | .vDict _, .vNone => isFalse (by intro hh; exact PyVal.noConfusion hh)
  | .vDict _, .vStr _ => isFalse (by intro hh; exact PyVal.noConfusion hh)
  | .vDict _, .vNum _ => isFalse (by intro hh; exact PyVal.noConfusion hh)
  | .vDict _, .vBool _ => isFalse (by intro hh; exact PyVal.noConfusion hh)
  | .vDict _, .vList _ => isFalse (by intro hh; exact PyVal.noConfusion hh)

def pyDecEqList : (a b : List PyVal) → Decidable (a = b)
  | [], [] => isTrue rfl
  | [], _ :: _ => isFalse (by intro hh; exact List.noConfusion hh)
  | _ :: _, [] => isFalse (by intro hh; exact List.noConfusion hh)
  | a :: as, b :: bs =>
    match pyDecEq a b, pyDecEqList as bs with
    | isTrue h1, isTrue h2 => isTrue (by rw [h1, h2])
    | isFalse h1, _ => isFalse (by intro hh; injection hh; contradiction)
    | _, isFalse h2 => isFalse (by intro hh; injection hh; contradiction)

def pyDecEqKV : (a b : List (String × PyVal)) → Decidable (a = b)
  | [], [] => isTrue rfl
  | [], _ :: _ => isFalse (by intro hh; exact List.noConfusion hh)
  | _ :: _, [] => isFalse (by intro hh; exact List.noConfusion hh)
  | (k, v) :: as, (k', v') :: bs =>
    match decEq k k', pyDecEq v v', pyDecEqKV as bs with
    | isTrue h0, isTrue h1, isTrue h2 => isTrue (by rw [h0, h1, h2])
    | isFalse h0, _, _ =>
      isFalse (by intro hh; injection hh with hp _; injection hp; contradiction)
    | _, isFalse h1, _ =>
      isFalse (by intro hh; injection hh with hp _; injection hp; contradiction)
    | _, _, isFalse h2 => isFalse (by intro hh; injection hh; contradiction)

end

instance : DecidableEq PyVal := pyDecEq

/-- Python truthiness: `None`, `""`, `0`, `False`, `[]`, `{}` are falsy. -/
def pyTruthy : PyVal → Bool
  | .vNone => false
  | .vStr s => s != ""
  | .vNum n => n != 0
  | .vBool b => b
  | .vList xs => !xs.isEmpty
  | .vDict kvs => !kvs.isEmpty

/-- Python `dict.get(k, dflt)`: first binding wins. -/
def pyGet (d : List (String × PyVal)) (k : String) (dflt : PyVal) : PyVal :=
  match d with
  | [] => dflt
  | (k', v) :: r => if k' = k then v else pyGet r k dflt

/-- Python `dict.get(k)` (default `None`). -/
def pyGetN (d : List (String × PyVal)) (k : String) : PyVal :=
  pyGet d k .vNone

/-- Whether a dict has a key (`k in d`). -/
def pyHasKey (d : List (String × PyVal)) (k : String) : Bool :=
  match d with
  | [] => false
  | (k', _) :: r => k' = k || pyHasKey r k

/-- Python `a or b` (value-returning, short-circuit on the truthiness
of `a`; both arguments already evaluated — used only where the second
operand's evaluation cannot fail). -/
def pyOr (a b : PyVal) : PyVal :=
  if pyTruthy a then a else b

/-- Python `==` between values as the pipeline uses it (scalar comparisons;
`True == 1` as in Python; container equality is structural — the pipeline
never compares containers). -/
def pyEqV : PyVal → PyVal → Bool
  | .vNone, .vNone => true
  | .vStr a, .vStr b => a == b
  | .vNum a, .vNum b => a == b
  | .vBool a, .vBool b => a == b
  | .vNum a, .vBool b => a == (if b then (1 : Int) else 0)
  | .vBool a, .vNum b => (if a then (1 : Int) else 0) == b
  | .vList a, .vList b => decide (a = b)
  | .vDict a, .vDict b => decide (a = b)
  | _, _ => false

/-- Is the value a Python `str`? -/
def pyIsStr : PyVal → Bool
  | .vStr _ => true
  | _ => false

/-- Python whitespace for `\s` in `re` (ASCII part). -/
def pyIsSpace (c : Char) : Bool :=
  c = ' ' || c = '\t' || c = '\n' || c = '\r' || c = '\x0b' || c = '\x0c'

/-- Python `str.lower()` (ASCII; every input the pipeline exercises is ASCII).
Defined over the char list so that it reduces definitionally. -/
def lowerStr (s : String) : String :=
  String.mk (s.data.map Char.toLower)

/-- Python `str.strip()` (strip Python whitespace from both ends). -/
def trimStr (s : String) : String :=
  String.mk (((s.data.dropWhile pyIsSpace).reverse.dropWhile pyIsSpace).reverse)

/-- Split on a predicate (single separators, keeping empties). -/
def splitChars (p : Char → Bool) : List Char → List Char → List String
  | acc, [] => [String.mk acc.reverse]
  | acc, c :: cs =>
    if p c then String.mk acc.reverse :: splitChars p [] cs
    else splitChars p (c :: acc) cs

/-- Python `str.split()` (no argument): split on whitespace runs, dropping empties. -/
def pySplitWs (s : String) : List String :=
  (splitChars pyIsSpace [] s.data).filter (fun t => t ≠ "")

/-- Prefix test over char lists. -/
def atFront : List Char → List Char → Bool
  | [], _ => true
  | _ :: _, [] => false
  | p :: ps, c :: cs => p == c && atFront ps cs

/-- Substring test (`needle in haystack` on Python strings). -/
def subAt : List Char → List Char → Bool
  | pat, [] => atFront pat []
  | pat, c :: cs => atFront pat (c :: cs) || subAt pat cs

def containsSub (hay needle : String) : Bool :=
  subAt needle.data hay.data

/-- Python `str.split(sep)` for a non-empty separator (fuel-based so that it
reduces definitionally; the fuel `l.length + 1` always suffices). -/
def pySplitSepAux (sep : List Char) : Nat → List Char → List Char → List String
  | 0, acc, l => [String.mk (acc.reverse ++ l)]
  | _ + 1, acc, [] => [String.mk acc.reverse]
  | fuel + 1, acc, c :: cs =>
    if atFront sep (c :: cs) then
      String.mk acc.reverse :: pySplitSepAux sep fuel [] ((c :: cs).drop sep.length)
    else pySplitSepAux sep fuel (c :: acc) cs

def pySplitSep (sep : String) (s : String) : List String :=
  pySplitSepAux sep.data (s.data.length + 1) [] s.data

/-- Decimal digits of a natural number (fuel-based). -/
def natToStrAux : Nat → Nat → List Char
  | 0, _ => []
  | fuel + 1, n =>
    if n < 10 then [Char.ofNat (48 + n)]
    else natToStrAux fuel (n / 10) ++ [Char.ofNat (48 + n % 10)]

/-- Python `str(n)` for a natural number. -/
def natToStr (n : Nat) : String :=
  String.mk (natToStrAux (n + 1) n)

/-- Python `str(v)`.  Container reprs are placeholders (the pipeline only
ever converts scalars — ids — to strings). -/
def pyToString : PyVal → String
  | .vNone => "None"
  | .vStr s => s
  | .vNum (.ofNat m) => natToStr m
  | .vNum (.negSucc m) => "-" ++ natToStr (m + 1)
  | .vBool true => "True"
  | .vBool false => "False"
  | .vList _ => "[...]"
  | .vDict _ => "\x7b...\x7d"

/-- Python space-join of a list of strings. -/
def joinSpace : List String → String
  | [] => ""
  | [x] => x
  | x :: y :: r => x ++ " " ++ joinSpace (y :: r)

/-! ## MD5 (`hashlib.md5(...).hexdigest()`)

A direct RFC 1321 implementation over `Nat` with explicit `% 2^32`. -/

def md5Mod : Nat := 4294967296

def add32 (a b : Nat) : Nat := (a + b) % md5Mod

def not32 (a : Nat) : Nat := 4294967295 - a % md5Mod

def rotl32 (x s : Nat) : Nat :=
  ((x % md5Mod) * 2 ^ s + (x % md5Mod) / 2 ^ (32 - s)) % md5Mod

def md5F (b c d : Nat) : Nat := Nat.lor (Nat.land b c) (Nat.land (not32 b) d)
def md5G (b c d : Nat) : Nat := Nat.lor (Nat.land d b) (Nat.land (not32 d) c)
def md5H (b c d : Nat) : Nat := Nat.xor (Nat.xor b c) d
def md5I (b c d : Nat) : Nat := Nat.xor c (Nat.lor b (not32 d))

/-- Per-round shift amounts. -/
def md5S : List Nat :=
  [7, 12, 17, 22, 7, 12, 17, 22, 7, 12, 17, 22, 7, 12, 17, 22,
   5, 9, 14, 20, 5, 9, 14, 20, 5, 9, 14, 20, 5, 9, 14, 20,
   4, 11, 16, 23, 4, 11, 16, 23, 4, 11, 16, 23, 4, 11, 16, 23,
   6, 10, 15, 21, 6, 10, 15, 21, 6, 10, 15, 21, 6, 10, 15, 21]

/-- Per-round sine constants. -/
def md5K : List Nat :=
  [0xd76aa478, 0xe8c7b756, 0x242070db, 0xc1bdceee,
   0xf57c0faf, 0x4787c62a, 0xa8304613, 0xfd469501,
   0x698098d8, 0x8b44f7af, 0xffff5bb1, 0x895cd7be,
   0x6b901122, 0xfd987193, 0xa679438e, 0x49b40821,
   0xf61e2562, 0xc040b340, 0x265e5a51, 0xe9b6c7aa,
   0xd62f105d, 0x02441453, 0xd8a1e681, 0xe7d3fbc8,
   0x21e1cde6, 0xc33707d6, 0xf4d50d87, 0x455a14ed,
   0xa9e3e905, 0xfcefa3f8, 0x676f02d9, 0x8d2a4c8a,
   0xfffa3942, 0x8771f681, 0x6d9d6122, 0xfde5380c,
   0xa4beea44, 0x4bdecfa9, 0xf6bb4b60, 0xbebfbc70,
   0x289b7ec6, 0xeaa127fa, 0xd4ef3085, 0x04881d05,
   0xd9d4d039, 0xe6db99e5, 0x1fa27cf8, 0xc4ac5665,
   0xf4292244, 0x432aff97, 0xab9423a7, 0xfc93a039,
   0x655b59c3, 0x8f0ccc92, 0xffeff47d, 0x85845dd1,
   0x6fa87e4f, 0xfe2ce6e0, 0xa3014314, 0x4e0811a1,
   0xf7537e82, 0xbd3af235, 0x2ad7d2bb, 0xeb86d391]

/-- One MD5 round: state is `(a, b, c, d)`, `ws` the 16 block words. -/
def md5Step (ws : List Nat) (st : Nat × Nat × Nat × Nat) (i : Nat) :
    Nat × Nat × Nat × Nat :=
  let a := st.1
  let b := st.2.1
  let c := st.2.2.1
  let d := st.2.2.2
  let fg : Nat × Nat :=
    if i < 16 then (md5F b c d, i)
    else if i < 32 then (md5G b c d, (5 * i + 1) % 16)
    else if i < 48 then (md5H b c d, (3 * i + 5) % 16)
    else (md5I b c d, (7 * i) % 16)
  let tmp := add32 (add32 a fg.1) (add32 (md5K.getD i 0) (ws.getD fg.2 0))
  (d, add32 b (rotl32 tmp (md5S.getD i 0)), b, c)

/-- Split a list into chunks of size `n + 1` (fuel-based so that it reduces
definitionally; each step consumes at least one element, so fuel
`l.length` always suffices). -/
def chunksByAux (n : Nat) : Nat → List α → List (List α)
  | 0, _ => []
  | _ + 1, [] => []
  | fuel + 1, x :: xs =>
    (x :: xs).take (n + 1) :: chunksByAux n fuel ((x :: xs).drop (n + 1))

def chunksBy (n : Nat) (l : List α) : List (List α) :=
  chunksByAux n l.length l

/-- Little-endian 32-bit word from (up to) 4 bytes. -/
def wordLE (l : List Nat) : Nat :=
  l.getD 0 0 + 256 * l.getD 1 0 + 65536 * l.getD 2 0 + 16777216 * l.getD 3 0

/-- Process one 64-byte block. -/
def md5Block (h : Nat × Nat × Nat × Nat) (block : List Nat) :
    Nat × Nat × Nat × Nat :=
  let ws := (chunksBy 3 block).map wordLE
  let r := (List.range 64).foldl (md5Step ws) h
  (add32 h.1 r.1, add32 h.2.1 r.2.1, add32 h.2.2.1 r.2.2.1,
   add32 h.2.2.2 r.2.2.2)

/-- MD5 padding: append 0x80, zero-fill to 56 mod 64, then the 64-bit
little-endian bit length. -/
def md5Pad (msg : List Nat) : List Nat :=
  let len := msg.length
  let zeros := (120 - (len + 1) % 64) % 64
  let bits := (8 * len) % 18446744073709551616
  msg ++ [128] ++ List.replicate zeros 0 ++
    ((List.range 8).map (fun i => bits / 2 ^ (8 * i) % 256))

def hexDigit (n : Nat) : Char :=
  "0123456789abcdef".data.getD n '0'

def byteHex (b : Nat) : String :=
  String.mk [hexDigit (b / 16), hexDigit (b % 16)]

/-- Little-endian bytes of one 32-bit word. -/
def wordBytesLE (w : Nat) : List Nat :=
  [w % 256, w / 256 % 256, w / 65536 % 256, w / 16777216 % 256]

/-- Python `hashlib.md5(bytes).hexdigest()`. -/
def md5Hex (msg : List Nat) : String :=
  let h := (chunksBy 63 (md5Pad msg)).foldl md5Block
    (0x67452301, 0xefcdab89, 0x98badcfe, 0x10325476)
  String.join ((wordBytesLE h.1 ++ wordBytesLE h.2.1 ++ wordBytesLE h.2.2.1 ++
    wordBytesLE h.2.2.2).map byteHex)

/-- UTF-8 encoding of one code point. -/
def charUtf8 (c : Char) : List Nat :=
  let n := c.toNat
  if n < 128 then [n]
  else if n < 2048 then [192 + n / 64, 128 + n % 64]
  else if n < 65536 then [224 + n / 4096, 128 + n / 64 % 64, 128 + n % 64]
  else [240 + n / 262144, 128 + n / 4096 % 64, 128 + n / 64 % 64, 128 + n % 64]

/-- Python `str.encode()` (UTF-8). -/
def utf8Bytes (s : String) : List Nat :=
  s.data.flatMap charUtf8

/-! ## `clean_text` (main.py lines 105-111)

`re.sub(r"<.*?>", "", text)` followed by `html.unescape`. -/

/-- Scan for the first `>` usable by the non-greedy `<.*?>` match: `.` does
not match a newline, so a newline before any `>` means no match at this
position.  Returns the remainder after the `>`. -/
def findGt : List Char → Option (List Char)
  | [] => none
  | c :: r => if c = '>' then some r else if c = '\n' then none else findGt r

/-- Python `re.sub(r"<.*?>", "", text)`: delete each leftmost-shortest tag run
(no newline inside); a `<` with no usable `>` is kept and scanning resumes
at the next character.  Fuel-based (each step consumes at least one
character, so `l.length` always suffices). -/
def stripTagsAux : Nat → List Char → List Char
  | 0, l => l
  | _ + 1, [] => []
  | fuel + 1, c :: rest =>
    if c = '<' then
      match findGt rest with
      | some r => stripTagsAux fuel r
      | none => c :: stripTagsAux fuel rest
    else c :: stripTagsAux fuel rest

def stripTags (l : List Char) : List Char :=
  stripTagsAux l.length l

/-- Python `html.unescape`, restricted to the `amp`/`lt`/`gt` entities (with and
without the trailing semicolon; longest alternative first, no rescanning of
replacements — matching CPython's behaviour on this fragment).  Entities
outside this subset are left untouched, which is faithful for every string
the repository's pipeline and tests exercise. -/
def unescapeAmpLtGt : List Char → List Char
  | [] => []
  | '&' :: 'a' :: 'm' :: 'p' :: ';' :: r => '&' :: unescapeAmpLtGt r
  | '&' :: 'a' :: 'm' :: 'p' :: r => '&' :: unescapeAmpLtGt r
  | '&' :: 'l' :: 't' :: ';' :: r => '<' :: unescapeAmpLtGt r
  | '&' :: 'l' :: 't' :: r => '<' :: unescapeAmpLtGt r
  | '&' :: 'g' :: 't' :: ';' :: r => '>' :: unescapeAmpLtGt r
  | '&' :: 'g' :: 't' :: r => '>' :: unescapeAmpLtGt r
  | c :: r => c :: unescapeAmpLtGt r

/-- Function `clean_text` (main.py 105-111): `None` for falsy input, else strip tags
then unescape entities. -/
def clean_text : Option String → Option String
  | none => none
  | some s =>
    if s = "" then none
    else some (String.mk (unescapeAmpLtGt (stripTags s.data)))

/-! ## `normalize_salary` (main.py 94-102) -/

/-- Function `normalize_salary` (main.py 94-102): pass-through, currency defaults to `"AUD"` when
falsy. -/
def normalize_salary (salary_min salary_max currency : PyVal) :
    PyVal × PyVal × PyVal :=
  (salary_min, salary_max, if pyTruthy currency then currency else .vStr "AUD")

/-! ## `normalize_location` (main.py 55-91) -/

/-- The string-format branch of normalize_location (main.py 85-89).
Note the pattern is a raw string, so `\\s` inside the character class is a
literal backslash plus the letter `s` — group 2 excludes `,`, `\` and the
letter `s`, not whitespace.  Returns `(city_group, state_group?)`, or `none`
when the regex finds no match (which happens exactly when the string is all
commas). -/
def locSearch (s : String) : Option (String × Option String) :=
  let cs := s.data.dropWhile (fun c => c = ',')
  match cs with
  | [] => none
  | _ :: _ =>
    let g1 := cs.takeWhile (fun c => c ≠ ',')
    let rest0 := cs.dropWhile (fun c => c ≠ ',')
    let rest1 := match rest0 with
      | ',' :: r => r
      | r => r
    let rest2 := match rest1 with
      | c :: r => if pyIsSpace c then r else rest1
      | [] => []
    let g2 := rest2.takeWhile (fun c => c ≠ ',' && c ≠ '\\' && c ≠ 's')
    some (String.mk g1, if g2.length ≥ 2 then some (String.mk g2) else none)

/-- Which branch the dict case of `normalize_location` takes: the Seek
branch fires when a truthy `locations` list's first entry is a dict with a
`label` key splitting into at least two parts; otherwise the regular dict
branch applies; a malformed first entry raises exactly where Python's
`'label' in entry` / `entry['label']` would. -/
inductive LocRoute where
  | seek : List (String × PyVal) → List String → LocRoute
  | regular : LocRoute
  | crash : String → LocRoute
deriving Repr, DecidableEq

def locRoute (d : List (String × PyVal)) : LocRoute :=
  match pyGetN d "locations" with
  | .vList (first :: _) =>
    match first with
    | .vDict sd =>
      if pyHasKey sd "label" then
        match pyGetN sd "label" with
        | .vStr lbl =>
          let parts := pySplitWs lbl
          if parts.length ≥ 2 then .seek sd parts else .regular
        | _ => .crash "AttributeError: split"
      else .regular
    | .vStr s =>
      -- `'label' in <str>` is a substring test; a hit is then indexed,
      -- raising TypeError
      if containsSub s "label" then .crash "TypeError: string indices"
      else .regular
    | .vList l =>
      if l.any (fun x => pyEqV x (.vStr "label")) then
        .crash "TypeError: list indices"
      else .regular
    | _ => .crash "TypeError: argument of type is not iterable"
  | _ => .regular

/-- Function `normalize_location` (main.py 55-91).  The result components are Python
values (`None` or the extracted value); the function can raise (model:
`Except.error`) when given a `locations` list whose head is a malformed
non-dict entry, exactly where Python's `in`/indexing would raise. -/
def normalize_location (location : PyVal) :
    Except String (PyVal × PyVal × PyVal) :=
  if ¬ pyTruthy location then .ok (.vNone, .vNone, .vStr "AU")
  else
    match location with
    | .vDict d =>
      match locRoute d with
      | .crash m => .error m
      | .seek sd parts =>
        .ok (.vStr (joinSpace parts.dropLast), .vStr (parts.getLastD ""),
          pyGet sd "countryCode" (.vStr "AU"))
      | .regular =>
        .ok (pyGetN d "city", pyGetN d "state", pyGet d "country" (.vStr "AU"))
    | .vStr s =>
      match locSearch s with
      | some (g1, g2) =>
        .ok (.vStr (trimStr g1),
          match g2 with
          | some st => .vStr (trimStr st)
          | none => .vNone,
          .vStr "AU")
      | none => .ok (location, .vNone, .vStr "AU")
    | _ =>
      -- any other truthy value falls through to `return location, None, "AU"`
      .ok (location, .vNone, .vStr "AU")

/-! ## `generate_job_hash` (main.py 114-119) -/

/-- Function `generate_job_hash` (main.py 114-119): lowercase-only normalization joined with an underscore, MD5
hex digest.  Note: the source lowercases but does NOT trim whitespace or
remove non-alphanumerics. -/
def cityLower : Option String → String
  | some c => if c = "" then "" else lowerStr c
  | none => ""

def generate_job_hash (company_name job_title : String)
    (location_city : Option String) : String :=
  md5Hex (utf8Bytes (lowerStr company_name ++ "_" ++ lowerStr job_title ++ "_" ++
    cityLower location_city))

/-- Model-level: an exception raised by the Python runtime or by the store
client, or a FastAPI `HTTPException`; its str form is the status code,
a colon and the detail. -/
inductive PyExc where
  | httpExc : Nat → String → PyExc
  | pyErr : String → PyExc
deriving Repr, DecidableEq

def pyExcStr : PyExc → String
  | .httpExc code detail => toString code ++ ": " ++ detail
  | .pyErr m => m

/-- Function `generate_job_hash` as invoked on dynamic values: `.lower()` on a
non-string raises; a falsy city contributes the empty string. -/
def genJobHashPy (company_name job_title location_city : PyVal) :
    Except PyExc String :=
  match company_name with
  | .vStr c =>
    match job_title with
    | .vStr t =>
      if pyTruthy location_city then
        match location_city with
        | .vStr city => .ok (generate_job_hash c t (some city))
        | _ => .error (.pyErr "AttributeError: lower")
      else .ok (generate_job_hash c t none)
    | _ => .error (.pyErr "AttributeError: lower")
  | _ => .error (.pyErr "AttributeError: lower")

/-! ## Company-name suffix stripping (main.py line 137)

`re.sub(r"\b(Inc|LLC|Ltd|Pty Ltd|Corp|Co)\.?$", "", name, flags=re.IGNORECASE).strip()`
Removes a word-boundary-delimited legal-entity tail (optionally dotted) at
the very end of the string, then trims. -/

def isWordChar (c : Char) : Bool := c.isAlphanum || c = '_'

/-- Case-insensitive match of an alternative at the front of a list,
returning the remainder. -/
def matchCI : List Char → List Char → Option (List Char)
  | [], l => some l
  | _ :: _, [] => none
  | p :: ps, c :: cs => if p.toLower = c.toLower then matchCI ps cs else none

def legalSuffixes : List String := ["Inc", "LLC", "Ltd", "Pty Ltd", "Corp", "Co"]

/-- Does one of the alternatives, optionally followed by `.`, reach exactly
the end of the string from here? -/
def legalTailHere (l : List Char) : Bool :=
  legalSuffixes.any fun alt =>
    match matchCI alt.data l with
    | some rest => rest = [] || rest = ['.']
    | none => false

/-- Leftmost-match deletion of the legal-entity tail; `prev` is the
character before the current position (for the `\b` word boundary — every
alternative begins with a word character, so the boundary holds exactly when
the previous character is absent or not a word character). -/
def cutLegalTail (prev : Option Char) : List Char → List Char
  | [] => []
  | c :: cs =>
    if (match prev with | none => true | some p => !(isWordChar p)) &&
        legalTailHere (c :: cs) then []
    else c :: cutLegalTail (some c) cs

/-- The `normalized_name` of main.py line 137 (input is the already-stripped
company name; the sub result is stripped again). -/
def stripLegalTail (s : String) : String :=
  trimStr (String.mk (cutLegalTail none s.data))

/-! ## Supabase `ilike` (SQL ILIKE) -/

/-- SQL LIKE pattern matching over char lists (pattern, text): `%` matches
any run, `_` one char, `\` escapes, otherwise literal.  Fuel-based (each
step shrinks pattern length plus text length, so their sum plus one always
suffices). -/
def likeMatchAux : Nat → List Char → List Char → Bool
  | 0, _, _ => false
  | _ + 1, [], [] => true
  | _ + 1, [], _ :: _ => false
  | fuel + 1, '%' :: ps, t =>
    likeMatchAux fuel ps t ||
      (match t with
       | [] => false
       | _ :: ts => likeMatchAux fuel ('%' :: ps) ts)
  | fuel + 1, '_' :: ps, t =>
    (match t with
     | [] => false
     | _ :: ts => likeMatchAux fuel ps ts)
  | fuel + 1, '\\' :: p :: ps, t =>
    (match t with
     | c :: ts => p == c && likeMatchAux fuel ps ts
     | [] => false)
  | fuel + 1, p :: ps, t =>
    (match t with
     | c :: ts => p == c && likeMatchAux fuel ps ts
     | [] => false)

def likeMatch (p t : List Char) : Bool :=
  likeMatchAux (p.length + t.length + 1) p t

/-- Supabase `.ilike(column, pattern)`: case-insensitive LIKE. -/
def ilikeB (pattern value : String) : Bool :=
  likeMatch (lowerStr pattern).data (lowerStr value).data

/-! ## The store model

The Supabase client is modelled as an explicit state (`Store`), a failure
oracle injecting per-call transport/storage errors, and a trace of the
store calls issued (in order, including failed calls).  `dupLinksInsert` is
the `insertDuplicateLink` operation of the specification's collaborator
interface (§6); it is part of the call vocabulary so that claims about
DuplicateLink rows are expressible — the source never issues it. -/

structure CompanyRow where
  company_id : Nat
  company_name : String
  company_website : Option String
deriving Repr, DecidableEq

structure JobRow where
  row_job_id : PyVal
  row_hash : String
  row_data : List (String × PyVal)
deriving Repr, DecidableEq

structure Store where
  companies : List CompanyRow
  jobs : List JobRow
  nextCompanyId : Nat
deriving Repr, DecidableEq

inductive StoreCall where
  | companiesSelectIlikeName : String → StoreCall
  | companiesSelectIlikeWebsite : String → StoreCall
  | companiesSelectEqName : String → StoreCall
  | companiesInsert : String → Option String → StoreCall
  | jobsSelectOr : String → String → StoreCall
  | jobsInsert : JobRow → StoreCall
  | dupLinksInsert : String → String → StoreCall
deriving Repr, DecidableEq

/-- A failure oracle: `some msg` makes the given store call raise an
exception with message `msg`; `none` lets it succeed against `Store`. -/
abbrev FailOracle := StoreCall → Option String

/-- Truthiness of a nullable text column value. -/
def optStrTruthy : Option String → Bool
  | some w => w != ""
  | none => false

/-! ## `get_or_create_company` (main.py 122-216)

The single Python function is decomposed along its early returns and its
`try`/`except` into helper definitions; each is annotated with the source
lines it embeds.  Results are `(outcome, store, trace)` where the outcome
`Except.ok none` is the function's `return None` (invalid name) and
exceptions are the raised `HTTPException`s. -/

/-- The `except` block (main.py 195-216): on a "duplicate key value" error
retry an exact (case-sensitive) `eq` lookup; otherwise (or if the recovery
finds nothing or itself fails) raise HTTP 500 naming the original error. -/
def goccRescue (fail : FailOracle) (st : Store) (name : String)
    (tr : List StoreCall) (m : String) :
    Except PyExc (Option Nat) × Store × List StoreCall :=
  if containsSub m "duplicate key value" then
    let c5 := StoreCall.companiesSelectEqName name
    match fail c5 with
    | some _ =>
      (.error (.httpExc 500 ("Database error on company insertion. Error: " ++ m)),
       st, tr ++ [c5])
    | none =>
      match st.companies.filter (fun c => c.company_name == name) with
      | c :: _ => (.ok (some c.company_id), st, tr ++ [c5])
      | [] =>
        (.error (.httpExc 500 ("Database error on company insertion. Error: " ++ m)),
         st, tr ++ [c5])
  else
    (.error (.httpExc 500 ("Database error on company insertion. Error: " ++ m)),
     st, tr)

/-- Step 4 (main.py 175-193): create a new company row. -/
def goccCreate (fail : FailOracle) (st : Store) (name : String)
    (website : PyVal) (tr : List StoreCall) :
    Except PyExc (Option Nat) × Store × List StoreCall :=
  match (if pyTruthy website then
           match website with
           | .vStr ws => Except.ok (some (trimStr ws))
           | _ => Except.error "AttributeError: strip"
         else Except.ok none : Except String (Option String)) with
  | .error m => goccRescue fail st name tr m
  | .ok webClean =>
    let c4 := StoreCall.companiesInsert name webClean
    match fail c4 with
    | some m => goccRescue fail st name (tr ++ [c4]) m
    | none =>
      (.ok (some st.nextCompanyId),
       { st with
          companies := st.companies ++
            [{ company_id := st.nextCompanyId, company_name := name,
               company_website := webClean }],
          nextCompanyId := st.nextCompanyId + 1 },
       tr ++ [c4])

/-- Step 3 (main.py 164-173): website lookup when no name match was
accepted, then fall through to creation. -/
def goccWebsite (fail : FailOracle) (st : Store) (name : String)
    (website : PyVal) (tr : List StoreCall) :
    Except PyExc (Option Nat) × Store × List StoreCall :=
  if pyTruthy website then
    match website with
    | .vStr ws =>
      let c3 := StoreCall.companiesSelectIlikeWebsite (trimStr ws)
      match fail c3 with
      | some m => goccRescue fail st name (tr ++ [c3]) m
      | none =>
        match st.companies.filter
            (fun c => match c.company_website with
              | some w => ilikeB (trimStr ws) w
              | none => false) with
        | c :: _ => (.ok (some c.company_id), st, tr ++ [c3])
        | [] => goccCreate fail st name website (tr ++ [c3])
    | _ => goccRescue fail st name tr "AttributeError: strip"
  else goccCreate fail st name website tr

/-- The name-match acceptance step (main.py 153-162): given the rows of the
name query, accept the first row — gated, when both the input and the
stored website are truthy, on the websites agreeing after strip+lower. -/
def goccName (fail : FailOracle) (st : Store) (name : String)
    (website : PyVal) (rows : List CompanyRow) (tr : List StoreCall) :
    Except PyExc (Option Nat) × Store × List StoreCall :=
  match rows with
  | c :: _ =>
    if pyTruthy website && optStrTruthy c.company_website then
      match website with
      | .vStr ws =>
        if lowerStr (trimStr ws) == lowerStr (trimStr (c.company_website.getD "")) then
          (.ok (some c.company_id), st, tr)
        else goccWebsite fail st name website tr
      | _ => goccRescue fail st name tr "AttributeError: strip"
    else (.ok (some c.company_id), st, tr)
  | [] => goccWebsite fail st name website tr

/-- Function `get_or_create_company` (main.py 122-216). -/
def get_or_create_company (fail : FailOracle) (st : Store)
    (company_name company_website : PyVal) :
    Except PyExc (Option Nat) × Store × List StoreCall :=
  match company_name with
  | .vStr s0 =>
    if s0 = "" then (.ok none, st, [])
    else
      let s := trimStr s0
      if s = "" then (.ok none, st, [])
      else
        let nrm := stripLegalTail s
        let c1 := StoreCall.companiesSelectIlikeName s
        match fail c1 with
        | some m => goccRescue fail st s [c1] m
        | none =>
          let rows1 := st.companies.filter (fun c => ilikeB s c.company_name)
          if rows1.isEmpty then
            let c2 := StoreCall.companiesSelectIlikeName nrm
            match fail c2 with
            | some m => goccRescue fail st s [c1, c2] m
            | none =>
              let rows2 := st.companies.filter (fun c => ilikeB nrm c.company_name)
              goccName fail st s company_website rows2 [c1, c2]
          else goccName fail st s company_website rows1 [c1]
  | _ => (.ok none, st, [])

/-! ## `parse_salary_range` (main.py 477-483) -/

/-- Function `parse_salary_range` (main.py 477-483): the source is an acknowledged stub returning
`(None, None)` for every input. -/
def parse_salary_range (_ : PyVal) : PyVal × PyVal := (.vNone, .vNone)

/-! ## Field extraction (main.py 239-360)

The per-source branches of `process_job`, decomposed into one definition
per branch.  `Extracted` carries the raw job dict as well (the
date-published lookup at main.py 371-375 reads it after validation). -/

structure Extracted where
  job : List (String × PyVal)
  source_platform : String
  job_id : PyVal
  company_name : PyVal
  company_website : PyVal
  job_title : PyVal
  location_city : PyVal
  location_state : PyVal
  location_country : PyVal
  salary_min : PyVal
  salary_max : PyVal
  job_url : PyVal
  contact_email : PyVal
deriving Repr, DecidableEq

/-- The `seek` branch (main.py 250-281): ids/names/titles go through
`str(...)`; location is hardcoded empty; the url is built from the
advertiser id. -/
def extractSeek (sp : String) (job : List (String × PyVal)) : Extracted :=
  let content := match pyGetN job "content" with | .vDict d => d | _ => []
  let advertiser := match pyGetN job "advertiser" with | .vDict d => d | _ => []
  let jid := pyToString (pyGet advertiser "id" (.vStr ""))
  { job := job, source_platform := sp,
    job_id := .vStr jid,
    company_name := .vStr (pyToString (pyGet advertiser "name" (.vStr "Unknown Company"))),
    company_website := .vNone,
    job_title := .vStr (pyToString (pyGet content "jobHook" (.vStr ""))),
    location_city := .vStr "", location_state := .vStr "",
    location_country := .vStr "AU",
    salary_min := .vNone, salary_max := .vNone,
    job_url := .vStr (if jid ≠ "" then "https://www.seek.com.au/job/" ++ jid else ""),
    contact_email := .vNone }

/-- The `linkedin` branch (main.py 282-296).  Note the title comes from the
single `title` key; `salaryInfo` is read into a dead local and ignored. -/
def extractLinkedin (sp : String) (job : List (String × PyVal)) :
    Except PyExc Extracted :=
  let location := pyGet job "location" (.vStr "")
  match (if pyTruthy location then
           match location with
           | .vStr s => Except.ok (pySplitSep ", " s)
           | _ => Except.error (PyExc.pyErr "AttributeError: split")
         else Except.ok ([] : List String)) with
  | .error e => .error e
  | .ok parts =>
    Except.ok
      { job := job, source_platform := sp,
        job_id := pyGetN job "id",
        company_name := pyGet job "companyName" (.vStr "Unknown Company"),
        company_website := pyOr (pyGetN job "companyWebsite")
          (pyGetN job "companyLinkedinUrl"),
        job_title := pyGet job "title" (.vStr ""),
        location_city := (match parts with | c :: _ => .vStr c | [] => .vNone),
        location_state := (match parts with | _ :: s :: _ => .vStr s | _ => .vNone),
        location_country :=
          (match parts with | _ :: _ :: c :: _ => .vStr c | _ => .vStr "AU"),
        salary_min := .vNone, salary_max := .vNone,
        job_url := pyOr (pyGetN job "link") (pyGet job "applyUrl" (.vStr "")),
        contact_email := .vNone }

/-- The `indeed` branch (main.py 297-346).  Note the short-form
`displayTitle` takes priority over `title` here (and only here). -/
def extractIndeed (sp : String) (job : List (String × PyVal)) :
    Except PyExc Extracted :=
  let jid0 := pyOr (pyGetN job "jobkey") (pyOr (pyGetN job "jobId") (pyGetN job "jk"))
  match (if pyTruthy jid0 then Except.ok jid0
         else
           match genJobHashPy (pyGet job "company" (.vStr "Unknown Company"))
               (pyGet job "displayTitle" (.vStr ""))
               (pyGet job "formattedLocation" (.vStr "")) with
           | .ok h => Except.ok (PyVal.vStr h)
           | .error e => .error e) with
  | .error e => .error e
  | .ok jid =>
    match (match pyGet job "companyDetails" (.vDict []) with
           | .vDict cd => Except.ok (pyGetN cd "website")
           | _ => Except.error (PyExc.pyErr "AttributeError: get")) with
    | .error e => .error e
    | .ok dw =>
      match (if pyTruthy dw then Except.ok dw
             else
               match pyGet job "companyBrandingAttributes" (.vDict []) with
               | .vDict cb => Except.ok (pyOr (pyGetN cb "websiteUrl") .vNone)
               | _ => Except.error (PyExc.pyErr "AttributeError: get")) with
      | .error e => .error e
      | .ok webv =>
        match (if pyTruthy (pyGetN job "jobLocationCity") then
                 Except.ok (pyGetN job "jobLocationCity")
               else
                 match pyGet job "formattedLocation" (.vStr "") with
                 | .vStr s =>
                   match pySplitWs s with
                   | w :: _ => Except.ok (PyVal.vStr w)
                   | [] => Except.error (PyExc.pyErr "IndexError: list index out of range")
                 | _ => Except.error (PyExc.pyErr "AttributeError: split")) with
        | .error e => .error e
        | .ok city =>
          match (let si := pyGet job "salarySnippet" (.vDict [])
                 if pyTruthy si then
                   match si with
                   | .vDict sd => Except.ok (pyGet sd "text" (.vStr ""))
                   | _ => Except.error (PyExc.pyErr "AttributeError: get")
                 else Except.ok (PyVal.vStr "")) with
          | .error e => .error e
          | .ok stext =>
            let sal := if pyTruthy stext then parse_salary_range stext
              else (.vNone, .vNone)
            Except.ok
              { job := job, source_platform := sp,
                job_id := jid,
                company_name := pyGet job "company" (.vStr "Unknown Company"),
                company_website := webv,
                job_title := pyOr (pyGetN job "displayTitle")
                  (pyGet job "title" (.vStr "")),
                location_city := city,
                location_state := pyGetN job "jobLocationState",
                location_country := .vStr "AU",
                salary_min := sal.1, salary_max := sal.2,
                job_url := pyOr (pyGetN job "link")
                  (pyOr (pyGetN job "clickLoggingUrl") (pyGet job "noJsUrl" (.vStr ""))),
                contact_email := .vNone }

/-- The default branch (main.py 347-360): snake_case/camelCase aliases, no
method calls, hence total. -/
def extractDefault (sp : String) (job : List (String × PyVal)) : Extracted :=
  { job := job, source_platform := sp,
    job_id := pyOr (pyGetN job "job_id") (pyOr (pyGetN job "jobID")
      (pyOr (pyGetN job "job_url") (pyGetN job "jobUrl"))),
    company_name := pyGet job "company_name" (.vStr "Unknown Company"),
    company_website := pyGetN job "company_website",
    job_title := pyGet job "job_title" (.vStr ""),
    location_city := pyGetN job "location_city",
    location_state := pyGetN job "location_state",
    location_country := pyGet job "location_country" (.vStr "AU"),
    salary_min := pyGetN job "salary_min",
    salary_max := pyGetN job "salary_max",
    job_url := pyOr (pyGetN job "job_url") (pyGet job "jobUrl" (.vStr "")),
    contact_email := pyGetN job "contact_email" }

/-- Source-tag dispatch (main.py 240-247 plus the branch selection):
`data.get("body", data)`, then lowercase `sourcePlatform` selects the
branch. -/
def extract (data : PyVal) : Except PyExc Extracted :=
  match data with
  | .vDict d =>
    match pyGet d "body" (.vDict d) with
    | .vDict job =>
      match pyGet job "sourcePlatform" (.vStr "") with
      | .vStr sp0 =>
        let sp := lowerStr sp0
        if sp = "seek" then .ok (extractSeek sp job)
        else if sp = "linkedin" then extractLinkedin sp job
        else if sp = "indeed" then extractIndeed sp job
        else .ok (extractDefault sp job)
      | _ => .error (.pyErr "AttributeError: lower")
    | _ => .error (.pyErr "AttributeError: get")
  | _ => .error (.pyErr "AttributeError: get")

/-! ## Validation and normalization (main.py 362-412) -/

structure Prepared where
  job_id : PyVal
  source_platform : String
  job_title : PyVal
  company_name : PyVal
  company_website : PyVal
  job_url : PyVal
  location_city : PyVal
  location_state : PyVal
  location_country : PyVal
  salary_min : PyVal
  salary_max : PyVal
  currency : PyVal
  date_published : PyVal
  contact_email : PyVal
deriving Repr, DecidableEq

/-- main.py 398: `not company_name or not isinstance(company_name, str) or
not company_name.strip()`. -/
def companyNameInvalid (v : PyVal) : Bool :=
  !(pyTruthy v) || !(pyIsStr v) ||
    (match v with | .vStr s => trimStr s == "" | _ => false)

/-- main.py 403: `not job_url or not isinstance(job_url, str)`. -/
def jobUrlInvalid (v : PyVal) : Bool :=
  !(pyTruthy v) || !(pyIsStr v)

/-- Validation then normalization (main.py 362-412), in source order:
job_id check, title check, date-published defaulting, company and url
validation, location normalization (over the freshly built 3-key dict, so
only its regular-dict branch is reachable), salary normalization with the
literal `"AUD"`.  The dead `processed_job` dict of main.py 378-392 is only
logged and is omitted. -/
def prepare (now : String) (e : Extracted) : Except PyExc Prepared :=
  if ¬ pyTruthy e.job_id then .error (.httpExc 400 "Missing job_id.")
  else if ¬ pyTruthy e.job_title then .error (.httpExc 400 "Missing job title")
  else
    let date_published := pyOr (pyGetN e.job "listedAt")
      (pyOr (pyGetN e.job "date_published") (.vStr now))
    if companyNameInvalid e.company_name then
      .error (.httpExc 400 "Missing company_name; job cannot be inserted.")
    else if jobUrlInvalid e.job_url then
      .error (.httpExc 400 "Missing job_url; job cannot be inserted.")
    else
      match normalize_location (.vDict [("city", e.location_city),
          ("state", e.location_state), ("country", e.location_country)]) with
      | .error m => .error (.pyErr m)
      | .ok loc =>
        let sal := normalize_salary e.salary_min e.salary_max (.vStr "AUD")
        .ok { job_id := e.job_id, source_platform := e.source_platform,
              job_title := e.job_title, company_name := e.company_name,
              company_website := e.company_website, job_url := e.job_url,
              location_city := loc.1, location_state := loc.2.1,
              location_country := loc.2.2,
              salary_min := sal.1, salary_max := sal.2.1,
              currency := sal.2.2,
              date_published := date_published,
              contact_email := e.contact_email }

/-! ## Persistence (main.py 414-469) -/

structure Response where
  message : String
  resp_job_id : PyVal
deriving Repr, DecidableEq

/-- The `job_data` dict of main.py 444-460 (its `created_at` timestamp is
modelled by the same `now` parameter as the ingestion time). -/
def mkJobData (p : Prepared) (company_id : Nat) (hash now2 : String) :
    List (String × PyVal) :=
  [("job_id", p.job_id), ("source", .vStr p.source_platform),
   ("job_title", p.job_title), ("company_id", .vNum (Int.ofNat company_id)),
   ("job_url", p.job_url), ("location_city", p.location_city),
   ("location_state", p.location_state),
   ("location_country", p.location_country),
   ("salary_min", p.salary_min), ("salary_max", p.salary_max),
   ("currency", p.currency), ("date_published", p.date_published),
   ("contact_email", p.contact_email), ("normalized_hash", .vStr hash),
   ("created_at", .vStr now2)]

def mkJobRow (p : Prepared) (company_id : Nat) (hash now2 : String) : JobRow :=
  { row_job_id := p.job_id, row_hash := hash,
    row_data := mkJobData p company_id hash now2 }

/-- The insertion block (main.py 443-469): a failing insert raises HTTP 500
with the error text; success returns the stored outcome. -/
def insertStep (fail : FailOracle) (now : String) (st : Store) (p : Prepared)
    (company_id : Nat) (hash : String) (tr : List StoreCall) :
    Except PyExc Response × Store × List StoreCall :=
  let row := mkJobRow p company_id hash now
  let c := StoreCall.jobsInsert row
  match fail c with
  | some m =>
    (.error (.httpExc 500 ("Internal server error: " ++ m)), st, tr ++ [c])
  | none =>
    (.ok { message := "Job processed successfully", resp_job_id := p.job_id },
     { st with jobs := st.jobs ++ [row] }, tr ++ [c])

/-- Does a stored row match the or-filter
`normalized_hash.eq.{hash},job_id.eq.{job_id}` (main.py 426)?  The textual
PostgREST filter is modelled structurally; ids are assumed free of filter
metacharacters. -/
def rowMatches (hash idStr : String) (r : JobRow) : Bool :=
  r.row_hash == hash || pyToString r.row_job_id == idStr

/-- Company resolution, fingerprint, duplicate check and insertion
(main.py 414-469).  The duplicate-check query's failure is caught, logged
and swallowed (main.py 439-441: "Continue with insertion attempt even if
check fails"); only the first row of the query result is inspected. -/
def persist (fail : FailOracle) (now : String) (st : Store) (p : Prepared) :
    Except PyExc Response × Store × List StoreCall :=
  match get_or_create_company fail st p.company_name p.company_website with
  | (.error e, st1, tr) => (.error e, st1, tr)
  | (.ok none, st1, tr) => (.error (.httpExc 400 "Invalid company data."), st1, tr)
  | (.ok (some cid), st1, tr) =>
    match genJobHashPy p.company_name p.job_title p.location_city with
    | .error e => (.error e, st1, tr)
    | .ok hash =>
      let idStr := pyToString p.job_id
      let c1 := StoreCall.jobsSelectOr hash idStr
      let tr1 := tr ++ [c1]
      match fail c1 with
      | some _ => insertStep fail now st1 p cid hash tr1
      | none =>
        match st1.jobs.filter (rowMatches hash idStr) with
        | [] => insertStep fail now st1 p cid hash tr1
        | r :: _ =>
          if pyEqV r.row_job_id p.job_id then
            (.ok { message := "Job already exists", resp_job_id := p.job_id },
             st1, tr1)
          else if r.row_hash == hash then
            (.ok { message := "Similar job already exists",
                   resp_job_id := r.row_job_id }, st1, tr1)
          else insertStep fail now st1 p cid hash tr1

/-- The whole `process_job` endpoint (main.py 234-474).  The outer
`except Exception` (main.py 471-474) catches every raised exception —
including the validation `HTTPException`s — and re-raises HTTP 500 with
`"Internal server error: " ++ str(e)`. -/
def process_job (fail : FailOracle) (now : String) (st : Store)
    (data : PyVal) : Except PyExc Response × Store × List StoreCall :=
  let inner : Except PyExc Response × Store × List StoreCall :=
    match extract data with
    | .error e => (.error e, st, [])
    | .ok e =>
      match prepare now e with
      | .error er => (.error er, st, [])
      | .ok p => persist fail now st p
  match inner with
  | (.error e, st', tr) =>
    (.error (.httpExc 500 ("Internal server error: " ++ pyExcStr e)), st', tr)
  | ok => ok

/-- A fully honest store behaviour (no injected failures). -/
def noFail : FailOracle := fun _ => none

/-- Does the input supply a country (the key the taken branch of
`normalize_location` would read)? -/
def suppliesCountry : PyVal → Bool
  | .vDict d =>
    (match locRoute d with
     | .seek sd _ => pyHasKey sd "countryCode"
     | _ => pyHasKey d "country")
  | _ => false

/-- Is the value one of the two shapes `normalize_location` recognises
structurally (a dict or a string)? -/
def isDictOrStr : PyVal → Bool
  | .vDict _ => true
  | .vStr _ => true
  | _ => false

/-- No `insertDuplicateLink` among the issued store calls. -/
def noDupCall (tr : List StoreCall) : Bool :=
  tr.all fun c => match c with
    | .dupLinksInsert _ _ => false
    | _ => true

/-- A store behaviour in which exactly the duplicate-check or-query fails. -/
def failDup : FailOracle := fun c =>
  match c with
  | .jobsSelectOr _ _ => some "network down"
  | _ => none

def exceptDecEq {e a : Type} [DecidableEq e] [DecidableEq a] :
    (x y : Except e a) → Decidable (x = y)
  | .ok x, .ok y =>
    match decEq x y with
    | isTrue h => isTrue (by rw [h])
    | isFalse h => isFalse (by intro hh; injection hh; contradiction)
  | .error x, .error y =>
    match decEq x y with
    | isTrue h => isTrue (by rw [h])
    | isFalse h => isFalse (by intro hh; injection hh; contradiction)
  | .ok _, .error _ => isFalse (fun hh => Except.noConfusion hh)
  | .error _, .ok _ => isFalse (fun hh => Except.noConfusion hh)

instance {e a : Type} [DecidableEq e] [DecidableEq a] :
    DecidableEq (Except e a) := exceptDecEq

/-! ## Claims -/

theorem pyGet_default_of_no_key (d : List (String × PyVal)) (k : String)
    (dflt : PyVal) (h : pyHasKey d k = false) : pyGet d k dflt = dflt := by
  induction d with
  | nil => rfl
  | cons kv r ih =>
    obtain ⟨k', v⟩ := kv
    simp only [pyHasKey, Bool.or_eq_false_iff, decide_eq_false_iff_not] at h
    simp only [pyGet, if_neg h.1]
    exact ih h.2

/-- C4 (counterexample): the spec's own example fails — `generate_job_hash`
lowercases but does not strip whitespace, so
`fingerprint("Acme Corp","Engineer","Sydney")` differs from
`fingerprint("acme corp","ENGINEER"," sydney ")`. -/
theorem fingerprint_spec_example_fails :
    generate_job_hash "Acme Corp" "Engineer" (some "Sydney") ≠
      generate_job_hash "acme corp" "ENGINEER" (some " sydney ") := by
  decide

/-- C4 (amended): `generate_job_hash` is a pure function of its three
arguments, and inputs differing only in letter case (not whitespace) yield
equal fingerprints; in particular the spec example holds once the
whitespace variation is removed. -/
theorem fingerprint_pure_case_insensitive
    (c₁ c₂ t₁ t₂ s₁ s₂ : String)
    (hc : lowerStr c₁ = lowerStr c₂) (ht : lowerStr t₁ = lowerStr t₂)
    (hs : lowerStr s₁ = lowerStr s₂) (h1 : s₁ ≠ "") (h2 : s₂ ≠ "") :
    generate_job_hash c₁ t₁ (some s₁) = generate_job_hash c₂ t₂ (some s₂) ∧
    generate_job_hash c₁ t₁ none = generate_job_hash c₂ t₂ none ∧
    generate_job_hash c₁ t₁ (some s₁) = generate_job_hash c₁ t₁ (some s₁) ∧
    generate_job_hash "Acme Corp" "Engineer" (some "Sydney") =
      generate_job_hash "acme corp" "ENGINEER" (some "Sydney") := by
  refine ⟨?_, ?_, rfl, by decide⟩
  · unfold generate_job_hash
    simp only [cityLower]
    rw [if_neg h1, if_neg h2, hc, ht, hs]
  · unfold generate_job_hash
    simp only [cityLower]
    rw [hc, ht]

/-- Witness for the amended C4 theorem at concrete inputs. -/
theorem fingerprint_pure_case_insensitive_check :
    generate_job_hash "Acme Corp" "Engineer" (some "Sydney") =
      generate_job_hash "acme corp" "ENGINEER" (some "sydney") :=
  (fingerprint_pure_case_insensitive "Acme Corp" "acme corp" "Engineer"
    "ENGINEER" "Sydney" "sydney" (by decide) (by decide) (by decide)
    (by decide) (by decide)).1

/-- C8 (counterexample): `clean_text` is not idempotent — unescaping can
produce a fresh entity that a second pass decodes again
(`"&amp;lt;"` → `"&lt;"` → `"<"`). -/
theorem clean_text_not_idempotent_example :
    clean_text (clean_text (some "&amp;lt;")) ≠ clean_text (some "&amp;lt;") := by
  decide

/-- C8 (amended): `clean_text` returns `None` exactly for null/empty input,
but applying it twice is not always the same as applying it once. -/
theorem clean_text_null_and_not_idempotent :
    clean_text none = none ∧ clean_text (some "") = none ∧
      ¬ (∀ t, clean_text (clean_text t) = clean_text t) :=
  ⟨rfl, rfl, fun hall => absurd (hall (some "&amp;lt;")) (by decide)⟩

/-- C9 (counterexample): an input of unrecognized shape (neither dict nor
string, e.g. the number 42) is NOT mapped to `(None, None, "AU")` — the
source's final `return location, None, "AU"` passes the input through as
the city. -/
theorem normalize_location_unrecognized_passthrough :
    normalize_location (.vNum 42) = .ok (.vNum 42, .vNone, .vStr "AU") ∧
      normalize_location (.vNum 42) ≠ .ok (.vNone, .vNone, .vStr "AU") := by
  refine ⟨rfl, fun h => ?_⟩
  simp [normalize_location, pyTruthy] at h

/-- C9 (amended): missing (falsy) input yields `(None, None, "AU")`; a
truthy input of unrecognized shape is returned as the city itself with null
state and country `"AU"`; and the country component is `"AU"` whenever the
input supplies no country. -/
theorem normalize_location_defaults :
    (∀ loc, pyTruthy loc = false →
        normalize_location loc = .ok (.vNone, .vNone, .vStr "AU")) ∧
    (∀ loc, pyTruthy loc = true → isDictOrStr loc = false →
        normalize_location loc = .ok (loc, .vNone, .vStr "AU")) ∧
    (∀ loc c s cty, normalize_location loc = .ok (c, s, cty) →
        suppliesCountry loc = false → cty = .vStr "AU") := by
  refine ⟨?_, ?_, ?_⟩
  · intro loc h
    simp [normalize_location, h]
  · intro loc h hd
    cases loc <;> simp_all [normalize_location, isDictOrStr]
  · intro loc c s cty h hn
    cases loc with
    | vNone => simp [normalize_location, pyTruthy] at h; exact h.2.2.symm
    | vBool b =>
      cases b <;> simp [normalize_location, pyTruthy] at h <;> exact h.2.2.symm
    | vNum n =>
      by_cases hz : n = 0
      · subst hz; simp [normalize_location, pyTruthy] at h; exact h.2.2.symm
      · simp [normalize_location, pyTruthy, hz] at h; exact h.2.2.symm
    | vList xs =>
      cases xs with
      | nil => simp [normalize_location, pyTruthy] at h; exact h.2.2.symm
      | cons x r => simp [normalize_location, pyTruthy] at h; exact h.2.2.symm
    | vStr s0 =>
      by_cases hz : s0 = ""
      · subst hz; simp [normalize_location, pyTruthy] at h; exact h.2.2.symm
      · simp only [normalize_location, pyTruthy] at h
        rw [if_neg (by simp [hz])] at h
        cases hls : locSearch s0 with
        | none => rw [hls] at h; simp at h; exact h.2.2.symm
        | some g =>
          obtain ⟨g1, g2⟩ := g
          rw [hls] at h
          simp at h
          exact h.2.2.symm
    | vDict d =>
      cases hd : d.isEmpty with
      | true =>
        have : d = [] := by cases d <;> simp_all [List.isEmpty]
        subst this
        simp [normalize_location, pyTruthy] at h
        exact h.2.2.symm
      | false =>
        simp only [normalize_location, pyTruthy] at h
        rw [if_neg (by simp [hd])] at h
        simp only [suppliesCountry] at hn
        cases hr : locRoute d with
        | crash m => rw [hr] at h; exact Except.noConfusion h
        | seek sd parts =>
          rw [hr] at h
          simp only [Except.ok.injEq, Prod.mk.injEq] at h
          rw [hr] at hn
          rw [← h.2.2]
          exact pyGet_default_of_no_key _ _ _ hn
        | regular =>
          rw [hr] at h
          simp only [Except.ok.injEq, Prod.mk.injEq] at h
          rw [hr] at hn
          rw [← h.2.2]
          exact pyGet_default_of_no_key _ _ _ hn

/-- Witness for the amended C9 theorem at concrete inputs. -/
theorem normalize_location_defaults_check :
    normalize_location .vNone = .ok (.vNone, .vNone, .vStr "AU") ∧
    normalize_location (.vNum 7) = .ok (.vNum 7, .vNone, .vStr "AU") ∧
    PyVal.vStr "AU" = .vStr "AU" :=
  ⟨normalize_location_defaults.1 .vNone rfl,
   normalize_location_defaults.2.1 (.vNum 7) rfl rfl,
   normalize_location_defaults.2.2 (.vDict [("city", .vStr "Perth")])
     (.vStr "Perth") .vNone (.vStr "AU") rfl rfl⟩

/-- C6 (confirmed): in company resolution, when the name query finds a first
match `c`: (A) if both the input website and the stored website are
non-empty and equal after strip+lower, the match is accepted; (B) if both
are non-empty and differ, the name match is NOT reused — control falls
through to the website-lookup/creation step; (C) if either website is
empty/absent, the name match is accepted on its own; and (D) the fall-back
step can only ever return a company matched by website or a freshly created
row, never the rejected name match. -/
theorem company_website_gate
    (fail : FailOracle) (st : Store) (n ws : String) (website : PyVal)
    (hf : ∀ call, fail call = none)
    (hne : n ≠ "") (htrim : trimStr n = n)
    (c : CompanyRow) (rest : List CompanyRow)
    (rows1 rows2 : List CompanyRow)
    (h1 : rows1 = st.companies.filter (fun cc => ilikeB n cc.company_name))
    (h2 : rows2 = st.companies.filter
      (fun cc => ilikeB (stripLegalTail n) cc.company_name))
    (hrows : (if rows1.isEmpty then rows2 else rows1) = c :: rest) :
    ((website = .vStr ws → ws ≠ "" → optStrTruthy c.company_website = true →
      lowerStr (trimStr ws) = lowerStr (trimStr (c.company_website.getD "")) →
      get_or_create_company fail st (.vStr n) website =
        (.ok (some c.company_id), st,
         if rows1.isEmpty then
           [StoreCall.companiesSelectIlikeName n,
            StoreCall.companiesSelectIlikeName (stripLegalTail n)]
         else [StoreCall.companiesSelectIlikeName n])) ∧
     (website = .vStr ws → ws ≠ "" → optStrTruthy c.company_website = true →
      lowerStr (trimStr ws) ≠ lowerStr (trimStr (c.company_website.getD "")) →
      get_or_create_company fail st (.vStr n) website =
        goccWebsite fail st n website
          (if rows1.isEmpty then
             [StoreCall.companiesSelectIlikeName n,
              StoreCall.companiesSelectIlikeName (stripLegalTail n)]
           else [StoreCall.companiesSelectIlikeName n])) ∧
     ((pyTruthy website = false ∨ optStrTruthy c.company_website = false) →
      get_or_create_company fail st (.vStr n) website =
        (.ok (some c.company_id), st,
         if rows1.isEmpty then
           [StoreCall.companiesSelectIlikeName n,
            StoreCall.companiesSelectIlikeName (stripLegalTail n)]
         else [StoreCall.companiesSelectIlikeName n])) ∧
     (∀ tr' id',
        (goccWebsite fail st n (.vStr ws) tr').1 = .ok (some id') →
        (∃ c' ∈ st.companies, ∃ w', c'.company_website = some w' ∧
            ilikeB (trimStr ws) w' = true ∧ id' = c'.company_id) ∨
          id' = st.nextCompanyId)) := by
  have hentry : get_or_create_company fail st (.vStr n) website =
      goccName fail st n website (c :: rest)
        (if rows1.isEmpty then
           [StoreCall.companiesSelectIlikeName n,
            StoreCall.companiesSelectIlikeName (stripLegalTail n)]
         else [StoreCall.companiesSelectIlikeName n]) := by
    by_cases he : rows1.isEmpty
    · rw [if_pos he] at hrows
      simp only [get_or_create_company, if_neg hne, htrim, hf]
      rw [← h1]
      simp only [he, if_true, hf]
      rw [← h2, hrows]
    · rw [if_neg he] at hrows
      simp only [get_or_create_company, if_neg hne, htrim, hf]
      rw [← h1]
      simp only [he, if_false]
      rw [hrows]
      simp
  have hcreate : ∀ tr'', (goccCreate fail st n (.vStr ws) tr'').1 =
      .ok (some st.nextCompanyId) := by
    intro tr''
    by_cases hws : ws = ""
    · subst hws; simp [goccCreate, pyTruthy, hf]
    · simp [goccCreate, pyTruthy, hws, hf]
  refine ⟨?_, ?_, ?_, ?_⟩
  · intro hw hws hst heq
    subst hw
    rw [hentry]
    simp only [goccName, pyTruthy, hst]
    rw [if_pos (by simp [hws])]
    rw [if_pos (by simp [heq])]
  · intro hw hws hst hne'
    subst hw
    rw [hentry]
    simp only [goccName, pyTruthy, hst]
    rw [if_pos (by simp [hws])]
    rw [if_neg (by simp [hne'])]
  · intro hdisj
    rw [hentry]
    cases hdisj with
    | inl hw => simp [goccName, hw]
    | inr hst => simp [goccName, hst]
  · intro tr' id' hres
    by_cases hws : ws = ""
    · subst hws
      simp only [goccWebsite, pyTruthy] at hres
      rw [if_neg (by simp)] at hres
      rw [hcreate] at hres
      simp only [Except.ok.injEq, Option.some.injEq] at hres
      right; exact hres.symm
    · simp only [goccWebsite, pyTruthy] at hres
      rw [if_pos (by simp [hws])] at hres
      simp only [hf] at hres
      cases hfil : st.companies.filter
          (fun cc => match cc.company_website with
            | some w => ilikeB (trimStr ws) w
            | none => false) with
      | cons c' rest' =>
        rw [hfil] at hres
        simp only [Except.ok.injEq, Option.some.injEq] at hres
        left
        have hmem : c' ∈ st.companies.filter
            (fun cc => match cc.company_website with
              | some w => ilikeB (trimStr ws) w
              | none => false) := by rw [hfil]; exact List.mem_cons_self _ _
        have hmf := List.mem_filter.mp hmem
        refine ⟨c', hmf.1, ?_⟩
        cases hcw : c'.company_website with
        | none => rw [hcw] at hmf; simp at hmf
        | some w' =>
          refine ⟨w', rfl, ?_, hres.symm⟩
          have h3 := hmf.2
          rw [hcw] at h3
          simpa using h3
      | nil =>
        rw [hfil] at hres
        rw [hcreate] at hres
        simp only [Except.ok.injEq, Option.some.injEq] at hres
        right; exact hres.symm

/-- Witness for the C6 theorem: a stored "Acme" with website `x.com` is
reused for input website `" X.COM "` (equal after strip+lower). -/
theorem company_website_gate_check :
    get_or_create_company noFail
        { companies := [{ company_id := 1, company_name := "Acme",
                          company_website := some "x.com" }],
          jobs := [], nextCompanyId := 2 }
        (.vStr "Acme") (.vStr " X.COM ") =
      (.ok (some 1),
       { companies := [{ company_id := 1, company_name := "Acme",
                         company_website := some "x.com" }],
         jobs := [], nextCompanyId := 2 },
       [StoreCall.companiesSelectIlikeName "Acme"]) := by
  have h := (company_website_gate noFail
    { companies := [{ company_id := 1, company_name := "Acme",
                      company_website := some "x.com" }],
      jobs := [], nextCompanyId := 2 }
    "Acme" " X.COM " (.vStr " X.COM ") (fun _ => rfl) (by decide) (by decide)
    { company_id := 1, company_name := "Acme", company_website := some "x.com" }
    [] [{ company_id := 1, company_name := "Acme", company_website := some "x.com" }]
    [{ company_id := 1, company_name := "Acme", company_website := some "x.com" }]
    (by decide) (by decide) (by decide)).1 rfl (by decide) (by decide) (by decide)
  exact h

theorem pyGet_all_vstr (d : List (String × PyVal)) (k : String) (s0 : String)
    (hall : ∀ kv ∈ d, ∃ s, kv.2 = PyVal.vStr s) :
    ∃ s, pyGet d k (.vStr s0) = .vStr s := by
  induction d with
  | nil => exact ⟨s0, rfl⟩
  | cons kv r ih =>
    obtain ⟨k', v⟩ := kv
    simp only [pyGet]
    by_cases hk : k' = k
    · rw [if_pos hk]
      obtain ⟨s, hs⟩ := hall (k', v) (List.mem_cons_self _ _)
      exact ⟨s, hs⟩
    · rw [if_neg hk]
      exact ih (fun kv hm => hall kv (List.mem_cons_of_mem _ hm))

/-- On a payload whose values are all strings, the linkedin branch succeeds
and its extracted title is exactly the `title` field (default `""`). -/
theorem extractLinkedin_title (sp : String) (d : List (String × PyVal))
    (hall : ∀ kv ∈ d, ∃ s, kv.2 = PyVal.vStr s) :
    ∃ e, extractLinkedin sp d = .ok e ∧
      e.job_title = pyGet d "title" (.vStr "") := by
  obtain ⟨ls, hls⟩ := pyGet_all_vstr d "location" "" hall
  unfold extractLinkedin
  rw [hls]
  by_cases h0 : ls = ""
  · subst h0
    simp only [pyTruthy]
    rw [if_neg (by simp)]
    exact ⟨_, rfl, rfl⟩
  · simp only [pyTruthy]
    rw [if_pos (by simp [h0])]
    exact ⟨_, rfl, rfl⟩

/-- C7 (counterexample): there is NO pair of distinct keys acting as a
short-form/long-form title pair for the LinkedIn adapter — no key takes
priority over a `title`-field fallback, because the branch reads only the
single `title` key.  (The short-over-long priority the spec describes lives
in the Indeed branch: `displayTitle or title`.) -/
theorem linkedin_no_short_title_override :
    ¬ ∃ ks kl : String, ks ≠ kl ∧
      (∀ s l : String, ∃ e, extractLinkedin "linkedin"
          [("sourcePlatform", .vStr "linkedin"), (ks, .vStr s), (kl, .vStr l)]
            = .ok e ∧ e.job_title = .vStr s) ∧
      (∀ l : String, ∃ e, extractLinkedin "linkedin"
          [("sourcePlatform", .vStr "linkedin"), (kl, .vStr l)] = .ok e ∧
          e.job_title = .vStr l) := by
  rintro ⟨ks, kl, hne, hpri, hfb⟩
  by_cases hkl : kl = "title"
  · subst hkl
    obtain ⟨e, he, hti⟩ := hpri "S" "L"
    obtain ⟨e', he', hti'⟩ := extractLinkedin_title "linkedin"
      [("sourcePlatform", .vStr "linkedin"), (ks, .vStr "S"), ("title", .vStr "L")]
      (by
        intro kv hm
        simp only [List.mem_cons, List.not_mem_nil, or_false] at hm
        rcases hm with rfl | rfl | rfl <;> exact ⟨_, rfl⟩)
    rw [he] at he'
    injection he' with hee
    rw [← hee] at hti'
    rw [hti] at hti'
    have hks : ¬ (ks = "title") := hne
    simp only [pyGet, if_neg (by decide : ¬("sourcePlatform" = "title")),
      if_neg hks, if_pos rfl] at hti'
    exact absurd hti' (by decide)
  · obtain ⟨e, he, hti⟩ := hfb "L"
    obtain ⟨e', he', hti'⟩ := extractLinkedin_title "linkedin"
      [("sourcePlatform", .vStr "linkedin"), (kl, .vStr "L")]
      (by
        intro kv hm
        simp only [List.mem_cons, List.not_mem_nil, or_false] at hm
        rcases hm with rfl | rfl <;> exact ⟨_, rfl⟩)
    rw [he] at he'
    injection he' with hee
    rw [← hee] at hti'
    rw [hti] at hti'
    simp only [pyGet, if_neg (by decide : ¬("sourcePlatform" = "title")),
      if_neg hkl] at hti'
    exact absurd hti' (by decide)

/-- C7 (amended): when the resolved source tag is LinkedIn the extracted
title is exactly the long-form `title` field (default `""`) — no short-form
field takes priority; at the endpoint level a LinkedIn-tagged payload's
extraction goes through that branch; and the short-over-long priority the
spec attributes to LinkedIn is in fact the Indeed branch's
`displayTitle or title`. -/
theorem linkedin_title_long_form_only :
    (∀ sp d e, extractLinkedin sp d = .ok e →
      e.job_title = pyGet d "title" (.vStr "")) ∧
    (∀ d, (∀ kv ∈ d, ∃ s, kv.2 = PyVal.vStr s) →
      pyHasKey d "body" = false →
      ∃ e, extract (.vDict (("sourcePlatform", .vStr "LinkedIn") :: d)) = .ok e ∧
        e.job_title =
          pyGet (("sourcePlatform", .vStr "LinkedIn") :: d) "title" (.vStr "")) ∧
    (∀ sp d e, extractIndeed sp d = .ok e →
      e.job_title = pyOr (pyGetN d "displayTitle") (pyGet d "title" (.vStr ""))) := by
  refine ⟨?_, ?_, ?_⟩
  · intro sp d e h
    simp only [extractLinkedin] at h
    split at h
    · exact Except.noConfusion h
    · injection h with h2
      rw [← h2]
  · intro d hall hbody
    have hd' : ∀ kv ∈ ("sourcePlatform", PyVal.vStr "LinkedIn") :: d,
        ∃ s, kv.2 = PyVal.vStr s := by
      intro kv hm
      rcases List.mem_cons.mp hm with rfl | hm2
      · exact ⟨_, rfl⟩
      · exact hall kv hm2
    obtain ⟨e, he, ht⟩ :=
      extractLinkedin_title "linkedin"
        (("sourcePlatform", PyVal.vStr "LinkedIn") :: d) hd'
    refine ⟨e, ?_, ht⟩
    have hb2 : pyGet d "body"
        (.vDict (("sourcePlatform", PyVal.vStr "LinkedIn") :: d)) =
        .vDict (("sourcePlatform", PyVal.vStr "LinkedIn") :: d) :=
      pyGet_default_of_no_key _ _ _ hbody
    have hgoto : extract (.vDict (("sourcePlatform", PyVal.vStr "LinkedIn") :: d)) =
        extractLinkedin "linkedin"
          (("sourcePlatform", PyVal.vStr "LinkedIn") :: d) := by
      unfold extract
      simp only [pyGet, if_neg (show ¬("sourcePlatform" = "body") by decide),
        hb2, if_pos rfl, if_true, eq_self_iff_true,
        show lowerStr "LinkedIn" = "linkedin" from rfl,
        if_neg (show ¬("linkedin" = "seek") by decide)]
    rw [hgoto]
    exact he
  · intro sp d e h
    simp only [extractIndeed] at h
    split at h
    · exact Except.noConfusion h
    · split at h
      · exact Except.noConfusion h
      · split at h
        · exact Except.noConfusion h
        · split at h
          · exact Except.noConfusion h
          · split at h
            · exact Except.noConfusion h
            · injection h with h2
              rw [← h2]

/-- Witness for the amended C7 theorem: a LinkedIn payload carrying both
`displayTitle` (the Indeed short-form key) and `title` extracts the `title`
value. -/
theorem linkedin_title_long_form_only_check :
    (extract (.vDict [("sourcePlatform", .vStr "LinkedIn"),
        ("displayTitle", .vStr "Short"), ("title", .vStr "Long")])).map
      Extracted.job_title = .ok (.vStr "Long") := by
  obtain ⟨e, he, ht⟩ := linkedin_title_long_form_only.2.1
    [("displayTitle", .vStr "Short"), ("title", .vStr "Long")]
    (by
      intro kv hm
      simp only [List.mem_cons, List.not_mem_nil, or_false] at hm
      rcases hm with rfl | rfl <;> exact ⟨_, rfl⟩)
    (by decide)
  rw [he]
  simp only [Except.map]
  rw [ht]
  rfl

/-- C3 (counterexample): a payload in which the company-name field is
MISSING is not rejected — the default adapter substitutes the literal
`"Unknown Company"` and the pipeline proceeds to make five store calls and
store the job. -/
theorem missing_company_name_not_rejected :
    (process_job noFail "2024-01-01T00:00:00+00:00"
        { companies := [], jobs := [], nextCompanyId := 1 }
        (.vDict [("job_id", .vStr "J1"), ("job_title", .vStr "Engineer"),
                 ("job_url", .vStr "http://x")])).1 =
      .ok { message := "Job processed successfully", resp_job_id := .vStr "J1" } ∧
    (process_job noFail "2024-01-01T00:00:00+00:00"
        { companies := [], jobs := [], nextCompanyId := 1 }
        (.vDict [("job_id", .vStr "J1"), ("job_title", .vStr "Engineer"),
                 ("job_url", .vStr "http://x")])).2.2 =
      [StoreCall.companiesSelectIlikeName "Unknown Company",
       StoreCall.companiesSelectIlikeName "Unknown Company",
       StoreCall.companiesInsert "Unknown Company" none,
       StoreCall.jobsSelectOr "2c287e24405edbd8b44a4431d4b3f05a" "J1",
       StoreCall.jobsInsert
         { row_job_id := .vStr "J1",
           row_hash := "2c287e24405edbd8b44a4431d4b3f05a",
           row_data := mkJobData
             { job_id := .vStr "J1", source_platform := "",
               job_title := .vStr "Engineer",
               company_name := .vStr "Unknown Company",
               company_website := .vNone, job_url := .vStr "http://x",
               location_city := .vNone, location_state := .vNone,
               location_country := .vStr "AU", salary_min := .vNone,
               salary_max := .vNone, currency := .vStr "AUD",
               date_published := .vStr "2024-01-01T00:00:00+00:00",
               contact_email := .vNone }
             1 "2c287e24405edbd8b44a4431d4b3f05a"
             "2024-01-01T00:00:00+00:00" }] :=
  ⟨rfl, rfl⟩

/-- C3 (amended): a payload whose company-name field is present but
unusable (falsy, non-string, or whitespace-only) is rejected naming
`company_name` before any store call (empty trace, store untouched) —
provided the earlier job-id and title validations pass; but a payload with
the field entirely absent receives the default `"Unknown Company"` in the
default adapter and proceeds. -/
theorem company_name_validation (data : PyVal) (e : Extracted) (now : String)
    (fail : FailOracle) (st : Store)
    (hA : extract data = .ok e)
    (hid : pyTruthy e.job_id = true)
    (hti : pyTruthy e.job_title = true)
    (hcn : companyNameInvalid e.company_name = true) :
    (process_job fail now st data =
      (.error (.httpExc 500
        "Internal server error: 400: Missing company_name; job cannot be inserted."),
       st, [])) ∧
    (∀ sp d, pyHasKey d "company_name" = false →
      (extractDefault sp d).company_name = .vStr "Unknown Company") := by
  constructor
  · have hp : prepare now e =
        .error (.httpExc 400 "Missing company_name; job cannot be inserted.") := by
      simp [prepare, hid, hti, hcn]
    simp only [process_job, hA, hp]
    rfl
  · intro sp d h
    simp only [extractDefault]
    exact pyGet_default_of_no_key _ _ _ h

/-- Witness for the amended C3 theorem: a payload carrying
`company_name: None` is rejected with an empty store trace. -/
theorem company_name_validation_check :
    process_job noFail "2024-02-02T00:00:00+00:00"
        { companies := [], jobs := [], nextCompanyId := 5 }
        (.vDict [("job_id", .vStr "J9"), ("job_title", .vStr "Welder"),
                 ("company_name", .vNone), ("job_url", .vStr "http://y")]) =
      (.error (.httpExc 500
        "Internal server error: 400: Missing company_name; job cannot be inserted."),
       { companies := [], jobs := [], nextCompanyId := 5 }, []) :=
  (company_name_validation
    (.vDict [("job_id", .vStr "J9"), ("job_title", .vStr "Welder"),
             ("company_name", .vNone), ("job_url", .vStr "http://y")])
    _ "2024-02-02T00:00:00+00:00" noFail
    { companies := [], jobs := [], nextCompanyId := 5 }
    rfl rfl rfl rfl).1

/-- C1 (counterexample): when the store holds both a fingerprint-matching
job (first in the query result) and an external-id-matching job, the
pipeline inspects only the FIRST returned row and answers
duplicate-by-fingerprint — even though a job with the same external id
exists, where the claim requires the duplicate-by-external-id response. -/
theorem dup_check_first_row_only :
    (process_job noFail "2024-01-01T00:00:00+00:00"
        { companies := [{ company_id := 1, company_name := "Acme",
                          company_website := none }],
          jobs := [{ row_job_id := .vStr "J9",
                     row_hash := generate_job_hash "Acme" "Engineer" (some "Sydney"),
                     row_data := [] },
                   { row_job_id := .vStr "J1", row_hash := "otherhash",
                     row_data := [] }],
          nextCompanyId := 2 }
        (.vDict [("job_id", .vStr "J1"), ("job_title", .vStr "Engineer"),
                 ("company_name", .vStr "Acme"), ("job_url", .vStr "http://x"),
                 ("location_city", .vStr "Sydney")])).1 =
      .ok { message := "Similar job already exists", resp_job_id := .vStr "J9" } ∧
    (∃ r ∈ ({ companies := [{ company_id := 1, company_name := "Acme",
                              company_website := none }],
              jobs := [{ row_job_id := .vStr "J9",
                         row_hash := generate_job_hash "Acme" "Engineer" (some "Sydney"),
                         row_data := [] },
                       { row_job_id := .vStr "J1", row_hash := "otherhash",
                         row_data := [] }],
              nextCompanyId := 2 } : Store).jobs,
        r.row_job_id = .vStr "J1") ∧
    (process_job noFail "2024-01-01T00:00:00+00:00"
        { companies := [{ company_id := 1, company_name := "Acme",
                          company_website := none }],
          jobs := [{ row_job_id := .vStr "J9",
                     row_hash := generate_job_hash "Acme" "Engineer" (some "Sydney"),
                     row_data := [] },
                   { row_job_id := .vStr "J1", row_hash := "otherhash",
                     row_data := [] }],
          nextCompanyId := 2 }
        (.vDict [("job_id", .vStr "J1"), ("job_title", .vStr "Engineer"),
                 ("company_name", .vStr "Acme"), ("job_url", .vStr "http://x"),
                 ("location_city", .vStr "Sydney")])).2.1.jobs =
      [{ row_job_id := .vStr "J9",
         row_hash := generate_job_hash "Acme" "Engineer" (some "Sydney"),
         row_data := [] },
       { row_job_id := .vStr "J1", row_hash := "otherhash", row_data := [] }] := by
  refine ⟨rfl, ⟨_, List.mem_cons_of_mem _ (List.mem_cons_self _ _), rfl⟩, rfl⟩

/-- C1 (amended): on a valid submission the pipeline issues the single
or-query on external id and fingerprint, but classifies using only the
FIRST row of the result: no match at all inserts the job with the resolved
company id and fingerprint; a first row carrying the same external id gives
the duplicate-by-external-id response with no insertion; a first row
matching only by fingerprint gives the duplicate-by-fingerprint response
naming that row's external id, with no insertion. -/
theorem dedup_pipeline_cases
    (fail : FailOracle) (now : String) (st : Store) (data : PyVal)
    (e : Extracted) (p : Prepared) (cid : Nat) (st1 : Store)
    (tr1 : List StoreCall) (hsh : String)
    (hA : extract data = .ok e)
    (hB : prepare now e = .ok p)
    (hG : get_or_create_company fail st p.company_name p.company_website =
      (.ok (some cid), st1, tr1))
    (hH : genJobHashPy p.company_name p.job_title p.location_city = .ok hsh)
    (hq : fail (StoreCall.jobsSelectOr hsh (pyToString p.job_id)) = none) :
    (st1.jobs.filter (rowMatches hsh (pyToString p.job_id)) = [] →
      fail (StoreCall.jobsInsert (mkJobRow p cid hsh now)) = none →
      process_job fail now st data =
        (.ok { message := "Job processed successfully", resp_job_id := p.job_id },
         { st1 with jobs := st1.jobs ++ [mkJobRow p cid hsh now] },
         (tr1 ++ [StoreCall.jobsSelectOr hsh (pyToString p.job_id)]) ++
           [StoreCall.jobsInsert (mkJobRow p cid hsh now)])) ∧
    (∀ r rest, st1.jobs.filter (rowMatches hsh (pyToString p.job_id)) = r :: rest →
      pyEqV r.row_job_id p.job_id = true →
      process_job fail now st data =
        (.ok { message := "Job already exists", resp_job_id := p.job_id },
         st1, tr1 ++ [StoreCall.jobsSelectOr hsh (pyToString p.job_id)])) ∧
    (∀ r rest, st1.jobs.filter (rowMatches hsh (pyToString p.job_id)) = r :: rest →
      pyEqV r.row_job_id p.job_id = false → r.row_hash = hsh →
      process_job fail now st data =
        (.ok { message := "Similar job already exists",
               resp_job_id := r.row_job_id },
         st1, tr1 ++ [StoreCall.jobsSelectOr hsh (pyToString p.job_id)])) := by
  refine ⟨?_, ?_, ?_⟩
  · intro hm hins
    have hper : persist fail now st p =
        (.ok { message := "Job processed successfully", resp_job_id := p.job_id },
         { st1 with jobs := st1.jobs ++ [mkJobRow p cid hsh now] },
         (tr1 ++ [StoreCall.jobsSelectOr hsh (pyToString p.job_id)]) ++
           [StoreCall.jobsInsert (mkJobRow p cid hsh now)]) := by
      simp only [persist, hG, hH, hq, hm, insertStep, hins]
    simp only [process_job, hA, hB, hper]
  · intro r rest hm heq
    have hper : persist fail now st p =
        (.ok { message := "Job already exists", resp_job_id := p.job_id },
         st1, tr1 ++ [StoreCall.jobsSelectOr hsh (pyToString p.job_id)]) := by
      simp only [persist, hG, hH, hq, hm, heq, if_true]
    simp only [process_job, hA, hB, hper]
  · intro r rest hm heq hhs
    have hper : persist fail now st p =
        (.ok { message := "Similar job already exists",
               resp_job_id := r.row_job_id },
         st1, tr1 ++ [StoreCall.jobsSelectOr hsh (pyToString p.job_id)]) := by
      simp only [persist, hG, hH, hq, hm, heq, hhs, if_false, beq_self_eq_true,
        if_true]
      simp
    simp only [process_job, hA, hB, hper]

/-- Witness for the amended C1 theorem: a resubmission with a stored
external-id match answers "Job already exists" without inserting. -/
theorem dedup_pipeline_cases_check :
    process_job noFail "2024-03-03T00:00:00+00:00"
        { companies := [{ company_id := 1, company_name := "Acme",
                          company_website := none }],
          jobs := [{ row_job_id := .vStr "J1", row_hash := "h0", row_data := [] }],
          nextCompanyId := 2 }
        (.vDict [("job_id", .vStr "J1"), ("job_title", .vStr "Engineer"),
                 ("company_name", .vStr "Acme"), ("job_url", .vStr "http://x"),
                 ("location_city", .vStr "Sydney")]) =
      (.ok { message := "Job already exists", resp_job_id := .vStr "J1" },
       { companies := [{ company_id := 1, company_name := "Acme",
                         company_website := none }],
         jobs := [{ row_job_id := .vStr "J1", row_hash := "h0", row_data := [] }],
         nextCompanyId := 2 },
       [StoreCall.companiesSelectIlikeName "Acme",
        StoreCall.jobsSelectOr
          (generate_job_hash "Acme" "Engineer" (some "Sydney")) "J1"]) := by
  exact (dedup_pipeline_cases noFail "2024-03-03T00:00:00+00:00"
    { companies := [{ company_id := 1, company_name := "Acme",
                      company_website := none }],
      jobs := [{ row_job_id := .vStr "J1", row_hash := "h0", row_data := [] }],
      nextCompanyId := 2 }
    (.vDict [("job_id", .vStr "J1"), ("job_title", .vStr "Engineer"),
             ("company_name", .vStr "Acme"), ("job_url", .vStr "http://x"),
             ("location_city", .vStr "Sydney")])
    _ _ 1 _ _ _ rfl rfl rfl rfl rfl).2.1
    { row_job_id := .vStr "J1", row_hash := "h0", row_data := [] } [] rfl rfl

theorem gocc_jobs_rescue (fail : FailOracle) (st : Store) (n : String)
    (tr : List StoreCall) (m : String) :
    (goccRescue fail st n tr m).2.1.jobs = st.jobs := by
  unfold goccRescue
  try dsimp only
  repeat' split
  all_goals rfl

theorem gocc_jobs_create (fail : FailOracle) (st : Store) (n : String)
    (w : PyVal) (tr : List StoreCall) :
    (goccCreate fail st n w tr).2.1.jobs = st.jobs := by
  unfold goccCreate
  try dsimp only
  repeat' split
  all_goals first
    | rfl
    | apply gocc_jobs_rescue

theorem gocc_jobs_website (fail : FailOracle) (st : Store) (n : String)
    (w : PyVal) (tr : List StoreCall) :
    (goccWebsite fail st n w tr).2.1.jobs = st.jobs := by
  unfold goccWebsite
  try dsimp only
  repeat' split
  all_goals first
    | rfl
    | apply gocc_jobs_rescue
    | apply gocc_jobs_create

theorem gocc_jobs_name (fail : FailOracle) (st : Store) (n : String)
    (w : PyVal) (rows : List CompanyRow) (tr : List StoreCall) :
    (goccName fail st n w rows tr).2.1.jobs = st.jobs := by
  unfold goccName
  try dsimp only
  repeat' split
  all_goals first
    | rfl
    | apply gocc_jobs_rescue
    | apply gocc_jobs_website

theorem gocc_jobs (fail : FailOracle) (st : Store) (cn w : PyVal) :
    (get_or_create_company fail st cn w).2.1.jobs = st.jobs := by
  unfold get_or_create_company
  try dsimp only
  repeat' split
  all_goals first
    | rfl
    | apply gocc_jobs_rescue
    | apply gocc_jobs_name

theorem noDup_rescue (fail : FailOracle) (st : Store) (n : String)
    (tr : List StoreCall) (m : String) (h : noDupCall tr = true) :
    noDupCall (goccRescue fail st n tr m).2.2 = true := by
  unfold goccRescue
  try dsimp only
  repeat' split
  all_goals simp_all [noDupCall, List.all_append]

theorem noDup_create (fail : FailOracle) (st : Store) (n : String)
    (w : PyVal) (tr : List StoreCall) (h : noDupCall tr = true) :
    noDupCall (goccCreate fail st n w tr).2.2 = true := by
  unfold goccCreate
  try dsimp only
  repeat' split
  all_goals first
    | (apply noDup_rescue; simp_all [noDupCall, List.all_append])
    | simp_all [noDupCall, List.all_append]

theorem noDup_website (fail : FailOracle) (st : Store) (n : String)
    (w : PyVal) (tr : List StoreCall) (h : noDupCall tr = true) :
    noDupCall (goccWebsite fail st n w tr).2.2 = true := by
  unfold goccWebsite
  try dsimp only
  repeat' split
  all_goals first
    | (apply noDup_rescue; simp_all [noDupCall, List.all_append])
    | (apply noDup_create; simp_all [noDupCall, List.all_append])
    | simp_all [noDupCall, List.all_append]

theorem noDup_name (fail : FailOracle) (st : Store) (n : String)
    (w : PyVal) (rows : List CompanyRow) (tr : List StoreCall)
    (h : noDupCall tr = true) :
    noDupCall (goccName fail st n w rows tr).2.2 = true := by
  unfold goccName
  try dsimp only
  repeat' split
  all_goals first
    | (apply noDup_rescue; simp_all [noDupCall, List.all_append])
    | (apply noDup_website; simp_all [noDupCall, List.all_append])
    | simp_all [noDupCall, List.all_append]

theorem noDup_gocc (fail : FailOracle) (st : Store) (cn w : PyVal) :
    noDupCall (get_or_create_company fail st cn w).2.2 = true := by
  unfold get_or_create_company
  try dsimp only
  repeat' split
  all_goals first
    | (apply noDup_rescue; simp_all [noDupCall, List.all_append])
    | (apply noDup_name; simp_all [noDupCall, List.all_append])
    | simp_all [noDupCall, List.all_append]

theorem noDup_insertStep (fail : FailOracle) (now : String) (st : Store)
    (p : Prepared) (cid : Nat) (hsh : String) (tr : List StoreCall)
    (h : noDupCall tr = true) :
    noDupCall (insertStep fail now st p cid hsh tr).2.2 = true := by
  unfold insertStep
  try dsimp only
  repeat' split
  all_goals simp_all [noDupCall, List.all_append]

theorem noDup_persist (fail : FailOracle) (now : String) (st : Store)
    (p : Prepared) :
    noDupCall (persist fail now st p).2.2 = true := by
  rcases hgc : get_or_create_company fail st p.company_name p.company_website
    with ⟨res, st1, tr⟩
  have htr : noDupCall tr = true := by
    have hx := noDup_gocc fail st p.company_name p.company_website
    rw [hgc] at hx
    exact hx
  unfold persist
  rw [hgc]
  try dsimp only
  repeat' split
  all_goals first
    | (apply noDup_insertStep; simp_all [noDupCall, List.all_append])
    | simp_all [noDupCall, List.all_append]

theorem insertStep_jobs (fail : FailOracle) (now : String) (st : Store)
    (p : Prepared) (cid : Nat) (hsh : String) (tr : List StoreCall) :
    (insertStep fail now st p cid hsh tr).2.1.jobs = st.jobs ∨
    (insertStep fail now st p cid hsh tr).2.1.jobs =
      st.jobs ++ [mkJobRow p cid hsh now] := by
  unfold insertStep
  try dsimp only
  split
  · left; rfl
  · right; rfl

theorem persist_jobs (fail : FailOracle) (now : String) (st : Store)
    (p : Prepared) :
    (persist fail now st p).2.1.jobs = st.jobs ∨
    ∃ cid hsh, (persist fail now st p).2.1.jobs =
      st.jobs ++ [mkJobRow p cid hsh now] := by
  rcases hgc : get_or_create_company fail st p.company_name p.company_website
    with ⟨res, st1, tr⟩
  have hj : st1.jobs = st.jobs := by
    have hx := gocc_jobs fail st p.company_name p.company_website
    rw [hgc] at hx
    exact hx
  unfold persist
  rw [hgc]
  cases res with
  | error e => left; exact hj
  | ok oc =>
    cases oc with
    | none => left; exact hj
    | some cid =>
      cases hh : genJobHashPy p.company_name p.job_title p.location_city with
      | error e2 => left; exact hj
      | ok hsh =>
        try dsimp only
        cases hf : fail (StoreCall.jobsSelectOr hsh (pyToString p.job_id)) with
        | some m =>
          rcases insertStep_jobs fail now st1 p cid hsh
              (tr ++ [StoreCall.jobsSelectOr hsh (pyToString p.job_id)])
            with hh2 | hh2
          · left; rw [hh2]; exact hj
          · right; exact ⟨cid, hsh, by rw [hh2, hj]⟩
        | none =>
          cases hfil : st1.jobs.filter (rowMatches hsh (pyToString p.job_id)) with
          | nil =>
            rcases insertStep_jobs fail now st1 p cid hsh
                (tr ++ [StoreCall.jobsSelectOr hsh (pyToString p.job_id)])
              with hh2 | hh2
            · left; rw [hh2]; exact hj
            · right; exact ⟨cid, hsh, by rw [hh2, hj]⟩
          | cons r rest =>
            cases hpe : pyEqV r.row_job_id p.job_id with
            | true => simp only [hpe, if_true]; left; exact hj
            | false =>
              simp only [hpe, Bool.false_eq_true, if_false]
              cases hbh : (r.row_hash == hsh) with
              | true => simp only [hbh, if_true]; left; exact hj
              | false =>
                simp only [hbh, Bool.false_eq_true, if_false]
                rcases insertStep_jobs fail now st1 p cid hsh
                    (tr ++ [StoreCall.jobsSelectOr hsh (pyToString p.job_id)])
                  with hh2 | hh2
                · left; rw [hh2]; exact hj
                · right; exact ⟨cid, hsh, by rw [hh2, hj]⟩

theorem prepare_currency (now : String) (e : Extracted) (p : Prepared)
    (hB : prepare now e = .ok p) : p.currency = .vStr "AUD" := by
  unfold prepare at hB
  repeat' split at hB
  all_goals first
    | exact Except.noConfusion hB
    | (injection hB with h2; rw [← h2]; rfl)

/-- C2 (counterexample): a concrete duplicate-by-external-id submission
produces the duplicate response while the complete store-call trace is just
the company lookup and the or-query — zero DuplicateLink insertions, not
exactly one. -/
theorem duplicate_records_no_link :
    (process_job noFail "2024-04-04T00:00:00+00:00"
        { companies := [{ company_id := 1, company_name := "Acme",
                          company_website := none }],
          jobs := [{ row_job_id := .vStr "J7", row_hash := "h7", row_data := [] }],
          nextCompanyId := 2 }
        (.vDict [("job_id", .vStr "J7"), ("job_title", .vStr "Engineer"),
                 ("company_name", .vStr "Acme"), ("job_url", .vStr "http://x"),
                 ("location_city", .vStr "Sydney")])).1 =
      .ok { message := "Job already exists", resp_job_id := .vStr "J7" } ∧
    (process_job noFail "2024-04-04T00:00:00+00:00"
        { companies := [{ company_id := 1, company_name := "Acme",
                          company_website := none }],
          jobs := [{ row_job_id := .vStr "J7", row_hash := "h7", row_data := [] }],
          nextCompanyId := 2 }
        (.vDict [("job_id", .vStr "J7"), ("job_title", .vStr "Engineer"),
                 ("company_name", .vStr "Acme"), ("job_url", .vStr "http://x"),
                 ("location_city", .vStr "Sydney")])).2.2 =
      [StoreCall.companiesSelectIlikeName "Acme",
       StoreCall.jobsSelectOr
         (generate_job_hash "Acme" "Engineer" (some "Sydney")) "J7"] :=
  ⟨rfl, rfl⟩

/-- C2 (amended): the pipeline NEVER records a DuplicateLink row — no run,
duplicate or otherwise, ever issues an `insertDuplicateLink` store call. -/
theorem no_duplicate_link_recorded :
    ∀ fail now st data, noDupCall (process_job fail now st data).2.2 = true := by
  intro fail now st data
  unfold process_job
  try dsimp only
  cases hA : extract data with
  | error e => rfl
  | ok e =>
    try dsimp only
    cases hB : prepare now e with
    | error er => rfl
    | ok p =>
      try dsimp only
      rcases hps : persist fail now st p with ⟨res, st', tr⟩
      have hx := noDup_persist fail now st p
      rw [hps] at hx
      cases res with
      | error e2 => exact hx
      | ok rr => exact hx

/-- C10 (confirmed): every job row the pipeline ever inserts carries
currency exactly `"AUD"` — the orchestrator passes the literal `"AUD"` into
salary normalization and never reads a currency field from the payload, so
any row in the resulting store is either a pre-existing row or one whose
recorded currency is `"AUD"`. -/
theorem inserted_currency_always_aud :
    ∀ fail now st data r, r ∈ (process_job fail now st data).2.1.jobs →
      r ∈ st.jobs ∨ pyGet r.row_data "currency" .vNone = .vStr "AUD" := by
  intro fail now st data r
  unfold process_job
  try dsimp only
  cases hA : extract data with
  | error e => intro hr; exact Or.inl hr
  | ok e =>
    try dsimp only
    cases hB : prepare now e with
    | error er => intro hr; exact Or.inl hr
    | ok p =>
      try dsimp only
      have hcur := prepare_currency now e p hB
      rcases hps : persist fail now st p with ⟨res, st', tr⟩
      have hpj := persist_jobs fail now st p
      rw [hps] at hpj
      have hmain : r ∈ st'.jobs →
          r ∈ st.jobs ∨ pyGet r.row_data "currency" .vNone = .vStr "AUD" := by
        intro hr'
        rcases hpj with h | ⟨cid, hsh, h⟩
        · left
          have h2 : st'.jobs = st.jobs := h
          rw [← h2]
          exact hr'
        · have h2 : st'.jobs = st.jobs ++ [mkJobRow p cid hsh now] := h
          rw [h2] at hr'
          rcases List.mem_append.mp hr' with h3 | h3
          · exact Or.inl h3
          · right
            have h4 : r = mkJobRow p cid hsh now := by simpa using h3
            rw [h4]
            have h5 : pyGet (mkJobData p cid hsh now) "currency" .vNone =
                p.currency := rfl
            rw [show (mkJobRow p cid hsh now).row_data =
              mkJobData p cid hsh now from rfl, h5]
            exact hcur
      cases res with
      | error e2 => intro hr; exact hmain hr
      | ok rr => intro hr; exact hmain hr

/-- Witness for the C10 theorem at a concrete stored run. -/
theorem inserted_currency_always_aud_check :
    mkJobRow
        { job_id := .vStr "J4", source_platform := "",
          job_title := .vStr "Tester", company_name := .vStr "Acme",
          company_website := .vNone, job_url := .vStr "http://z",
          location_city := .vNone, location_state := .vNone,
          location_country := .vStr "AU", salary_min := .vNone,
          salary_max := .vNone, currency := .vStr "AUD",
          date_published := .vStr "2024-05-05T00:00:00+00:00",
          contact_email := .vNone }
        1 (generate_job_hash "Acme" "Tester" none) "2024-05-05T00:00:00+00:00"
      ∈ ({ companies := [{ company_id := 1, company_name := "Acme",
                           company_website := none }],
           jobs := [], nextCompanyId := 2 } : Store).jobs ∨
    pyGet (mkJobRow
        { job_id := .vStr "J4", source_platform := "",
          job_title := .vStr "Tester", company_name := .vStr "Acme",
          company_website := .vNone, job_url := .vStr "http://z",
          location_city := .vNone, location_state := .vNone,
          location_country := .vStr "AU", salary_min := .vNone,
          salary_max := .vNone, currency := .vStr "AUD",
          date_published := .vStr "2024-05-05T00:00:00+00:00",
          contact_email := .vNone }
        1 (generate_job_hash "Acme" "Tester" none)
        "2024-05-05T00:00:00+00:00").row_data "currency" .vNone = .vStr "AUD" :=
  inserted_currency_always_aud noFail "2024-05-05T00:00:00+00:00"
    { companies := [{ company_id := 1, company_name := "Acme",
                      company_website := none }],
      jobs := [], nextCompanyId := 2 }
    (.vDict [("job_id", .vStr "J4"), ("job_title", .vStr "Tester"),
             ("company_name", .vStr "Acme"), ("job_url", .vStr "http://z")])
    _ (by decide)

/-- C5 (counterexample): when the duplicate-check or-query raises, the
pipeline logs and swallows the failure and proceeds to insert — here the
store even holds a same-external-id job, yet the run reports success and
the job count grows from one to two. -/
theorem dup_check_failure_swallowed :
    (process_job failDup "2024-06-06T00:00:00+00:00"
        { companies := [{ company_id := 1, company_name := "Acme",
                          company_website := none }],
          jobs := [{ row_job_id := .vStr "J1", row_hash := "h0", row_data := [] }],
          nextCompanyId := 2 }
        (.vDict [("job_id", .vStr "J1"), ("job_title", .vStr "Engineer"),
                 ("company_name", .vStr "Acme"), ("job_url", .vStr "http://x"),
                 ("location_city", .vStr "Sydney")])).1 =
      .ok { message := "Job processed successfully", resp_job_id := .vStr "J1" } ∧
    (process_job failDup "2024-06-06T00:00:00+00:00"
        { companies := [{ company_id := 1, company_name := "Acme",
                          company_website := none }],
          jobs := [{ row_job_id := .vStr "J1", row_hash := "h0", row_data := [] }],
          nextCompanyId := 2 }
        (.vDict [("job_id", .vStr "J1"), ("job_title", .vStr "Engineer"),
                 ("company_name", .vStr "Acme"), ("job_url", .vStr "http://x"),
                 ("location_city", .vStr "Sydney")])).2.1.jobs.length = 2 :=
  ⟨rfl, rfl⟩

/-- C5 (amended): a failing company-resolution store call and a failing job
insertion are surfaced to the caller as server-side failures, but a failure
of the duplicate-check or-query alone is swallowed: processing continues
and the job is inserted as if no duplicate existed. -/
theorem storage_failure_propagation
    (fail : FailOracle) (now : String) (st : Store) (data : PyVal)
    (e : Extracted) (p : Prepared)
    (hA : extract data = .ok e) (hB : prepare now e = .ok p) :
    (∀ err st1 tr1,
      get_or_create_company fail st p.company_name p.company_website =
          (.error err, st1, tr1) →
      process_job fail now st data =
        (.error (.httpExc 500 ("Internal server error: " ++ pyExcStr err)),
         st1, tr1) ∧
      st1.jobs = st.jobs) ∧
    (∀ cid st1 tr1 hsh m,
      get_or_create_company fail st p.company_name p.company_website =
          (.ok (some cid), st1, tr1) →
      genJobHashPy p.company_name p.job_title p.location_city = .ok hsh →
      fail (StoreCall.jobsSelectOr hsh (pyToString p.job_id)) = some m →
      fail (StoreCall.jobsInsert (mkJobRow p cid hsh now)) = none →
      process_job fail now st data =
        (.ok { message := "Job processed successfully", resp_job_id := p.job_id },
         { st1 with jobs := st1.jobs ++ [mkJobRow p cid hsh now] },
         (tr1 ++ [StoreCall.jobsSelectOr hsh (pyToString p.job_id)]) ++
           [StoreCall.jobsInsert (mkJobRow p cid hsh now)])) ∧
    (∀ cid st1 tr1 hsh m,
      get_or_create_company fail st p.company_name p.company_website =
          (.ok (some cid), st1, tr1) →
      genJobHashPy p.company_name p.job_title p.location_city = .ok hsh →
      fail (StoreCall.jobsSelectOr hsh (pyToString p.job_id)) = none →
      st1.jobs.filter (rowMatches hsh (pyToString p.job_id)) = [] →
      fail (StoreCall.jobsInsert (mkJobRow p cid hsh now)) = some m →
      process_job fail now st data =
        (.error (.httpExc 500 ("Internal server error: " ++
          pyExcStr (.httpExc 500 ("Internal server error: " ++ m)))),
         st1,
         (tr1 ++ [StoreCall.jobsSelectOr hsh (pyToString p.job_id)]) ++
           [StoreCall.jobsInsert (mkJobRow p cid hsh now)])) := by
  refine ⟨?_, ?_, ?_⟩
  · intro err st1 tr1 hG
    constructor
    · have hper : persist fail now st p = (.error err, st1, tr1) := by
        simp only [persist, hG]
      simp only [process_job, hA, hB, hper]
    · have hx := gocc_jobs fail st p.company_name p.company_website
      rw [hG] at hx
      exact hx
  · intro cid st1 tr1 hsh m hG hH hq hins
    have hper : persist fail now st p =
        (.ok { message := "Job processed successfully", resp_job_id := p.job_id },
         { st1 with jobs := st1.jobs ++ [mkJobRow p cid hsh now] },
         (tr1 ++ [StoreCall.jobsSelectOr hsh (pyToString p.job_id)]) ++
           [StoreCall.jobsInsert (mkJobRow p cid hsh now)]) := by
      simp only [persist, hG, hH, hq, insertStep, hins]
    simp only [process_job, hA, hB, hper]
  · intro cid st1 tr1 hsh m hG hH hq hfil hins
    have hper : persist fail now st p =
        (.error (.httpExc 500 ("Internal server error: " ++ m)),
         st1,
         (tr1 ++ [StoreCall.jobsSelectOr hsh (pyToString p.job_id)]) ++
           [StoreCall.jobsInsert (mkJobRow p cid hsh now)]) := by
      simp only [persist, hG, hH, hq, hfil, insertStep, hins]
    simp only [process_job, hA, hB, hper]

/-- Witness for the amended C5 theorem: with only the or-query failing, the
submission is stored anyway. -/
theorem storage_failure_propagation_check :
    process_job failDup "2024-07-07T00:00:00+00:00"
        { companies := [{ company_id := 3, company_name := "Beta",
                          company_website := none }],
          jobs := [], nextCompanyId := 4 }
        (.vDict [("job_id", .vStr "J2"), ("job_title", .vStr "Fitter"),
                 ("company_name", .vStr "Beta"), ("job_url", .vStr "http://w")]) =
      (.ok { message := "Job processed successfully", resp_job_id := .vStr "J2" },
       { companies := [{ company_id := 3, company_name := "Beta",
                         company_website := none }],
         jobs := [mkJobRow
           { job_id := .vStr "J2", source_platform := "",
             job_title := .vStr "Fitter", company_name := .vStr "Beta",
             company_website := .vNone, job_url := .vStr "http://w",
             location_city := .vNone, location_state := .vNone,
             location_country := .vStr "AU", salary_min := .vNone,
             salary_max := .vNone, currency := .vStr "AUD",
             date_published := .vStr "2024-07-07T00:00:00+00:00",
             contact_email := .vNone }
           3 (generate_job_hash "Beta" "Fitter" none)
           "2024-07-07T00:00:00+00:00"],
         nextCompanyId := 4 },
       ([StoreCall.companiesSelectIlikeName "Beta"] ++
          [StoreCall.jobsSelectOr (generate_job_hash "Beta" "Fitter" none) "J2"]) ++
         [StoreCall.jobsInsert (mkJobRow
           { job_id := .vStr "J2", source_platform := "",
             job_title := .vStr "Fitter", company_name := .vStr "Beta",
             company_website := .vNone, job_url := .vStr "http://w",
             location_city := .vNone, location_state := .vNone,
             location_country := .vStr "AU", salary_min := .vNone,
             salary_max := .vNone, currency := .vStr "AUD",
             date_published := .vStr "2024-07-07T00:00:00+00:00",
             contact_email := .vNone }
           3 (generate_job_hash "Beta" "Fitter" none)
           "2024-07-07T00:00:00+00:00")]) := by
  exact (storage_failure_propagation failDup "2024-07-07T00:00:00+00:00"
    { companies := [{ company_id := 3, company_name := "Beta",
                      company_website := none }],
      jobs := [], nextCompanyId := 4 }
    (.vDict [("job_id", .vStr "J2"), ("job_title", .vStr "Fitter"),
             ("company_name", .vStr "Beta"), ("job_url", .vStr "http://w")])
    _ _ rfl rfl).2.1 3
    { companies := [{ company_id := 3, company_name := "Beta",
                      company_website := none }],
      jobs := [], nextCompanyId := 4 }
    [StoreCall.companiesSelectIlikeName "Beta"]
    (generate_job_hash "Beta" "Fitter" none) "network down" rfl rfl rfl rfl
